import Mathlib

/-!
Verification of the beat-saber-map-rs data model and codecs.

The Rust sources under src/ are shallowly embedded: machine integers become
Nat (u8/u32/usize values carry explicit bounds where they matter), f64 values
become an explicit four-case model (finite rationals, NaN, the infinities),
JSON documents become an inductive value type at the serde_json value level,
fallible operations return Except, and file-system access in the directory
assembler becomes an explicit oracle of per-path load results.
-/

set_option maxHeartbeats 1000000

namespace BSM

/-- Model of a JSON number as stored by serde_json: an integer lane or a
floating point lane. Finite floating point values are modelled as exact
rationals; serde_json never stores NaN or an infinity inside a number (it
writes null for non-finite floats). -/
inductive JNum where
  | int (i : Int)
  | float (q : Rat)
deriving DecidableEq

/-- Model of serde_json JSON values. Object fields are kept in order. -/
inductive Json where
  | null
  | bool (b : Bool)
  | num (n : JNum)
  | str (s : String)
  | arr (items : List Json)
  | obj (fields : List (String × Json))

/-- Model of Rust f64 values: a finite value (modelled as an exact rational,
which the serde_json text layer round-trips exactly), NaN, or an infinity.
Equality of the model is structural. -/
inductive F64 where
  | finite (q : Rat)
  | nan
  | posInf
  | negInf
deriving DecidableEq

/-- Model of serde deserialization errors raised while decoding a document. -/
inductive DeError where
  | custom (msg : String)
  | invalidType (unexpected : String) (expected : String)
  | invalidValue (unexpected : String) (expected : String)
deriving DecidableEq

/-- The crate error enum from src/lib.rs. The serde_json and std::io payloads
are modelled by the decode error model and by a message string. -/
inductive Error where
  | serdeJson (e : DeError)
  | io (msg : String)
  | lineIndexTryFromU8 (n : Nat)
  | lineLayerTryFromU8 (n : Nat)
  | colorTryFromU8 (n : Nat)
  | cutDirectionTryFromU8 (n : Nat)
  | midAnchorModeTryFromU8 (n : Nat)
  | executionTimeTryFromU8 (n : Nat)
deriving DecidableEq

/-- The thiserror Display text of each Error variant, from the #[error(...)]
attributes in src/lib.rs (the serde_json and io payloads display
transparently, modelled by their carried message). -/
def Error.message : Error → String
  | .serdeJson (.custom m) => m
  | .serdeJson (.invalidType u e) => "invalid type: " ++ u ++ ", expected " ++ e
  | .serdeJson (.invalidValue u e) => "invalid value: " ++ u ++ ", expected " ++ e
  | .io m => m
  | .lineIndexTryFromU8 n =>
      "Could not convert u8 to LineIndex, expected integer from 0 to 3, got " ++ toString n
  | .lineLayerTryFromU8 n =>
      "Could not convert u8 to LineLayer, expected integer from 0 to 2, got " ++ toString n
  | .colorTryFromU8 n =>
      "Could not convert u8 to Color, expected 0 or 1, got " ++ toString n
  | .cutDirectionTryFromU8 n =>
      "Could not convert u8 to CutDirection, expected integer from 0 to 8, got " ++ toString n
  | .midAnchorModeTryFromU8 n =>
      "Could not convert u8 to MidAnchorMode, expected integer from 0 to 2, got " ++ toString n
  | .executionTimeTryFromU8 n =>
      "Could not convert u8 to ExecutionTime, expected 0 or 1, got " ++ toString n

/-- Horizontal grid column, src/beatmap.rs enum LineIndex. -/
inductive LineIndex where
  | farLeft
  | left
  | right
  | farRight
deriving DecidableEq

/-- impl TryFrom of u8 for LineIndex (src/beatmap.rs). -/
def LineIndex.tryFrom : Nat → Except Error LineIndex
  | 0 => .ok .farLeft
  | 1 => .ok .left
  | 2 => .ok .right
  | 3 => .ok .farRight
  | other => .error (.lineIndexTryFromU8 other)

/-- impl Into of u8 for LineIndex: the declaration-order ordinal. -/
def LineIndex.intoU8 : LineIndex → Nat
  | .farLeft => 0
  | .left => 1
  | .right => 2
  | .farRight => 3

/-- Vertical grid row, src/beatmap.rs enum LineLayer. -/
inductive LineLayer where
  | bottom
  | middle
  | top
deriving DecidableEq

/-- impl TryFrom of u8 for LineLayer (src/beatmap.rs). -/
def LineLayer.tryFrom : Nat → Except Error LineLayer
  | 0 => .ok .bottom
  | 1 => .ok .middle
  | 2 => .ok .top
  | other => .error (.lineLayerTryFromU8 other)

/-- impl Into of u8 for LineLayer: the declaration-order ordinal. -/
def LineLayer.intoU8 : LineLayer → Nat
  | .bottom => 0
  | .middle => 1
  | .top => 2

/-- Saber assignment, src/beatmap.rs enum Color. -/
inductive Color where
  | leftSaber
  | rightSaber
deriving DecidableEq

/-- impl TryFrom of u8 for Color (src/beatmap.rs). -/
def Color.tryFrom : Nat → Except Error Color
  | 0 => .ok .leftSaber
  | 1 => .ok .rightSaber
  | other => .error (.colorTryFromU8 other)

/-- impl Into of u8 for Color: the declaration-order ordinal. -/
def Color.intoU8 : Color → Nat
  | .leftSaber => 0
  | .rightSaber => 1

/-- Swing direction, src/beatmap.rs enum CutDirection. -/
inductive CutDirection where
  | up
  | down
  | left
  | right
  | upLeft
  | upRight
  | downLeft
  | downRight
  | any
deriving DecidableEq

/-- impl TryFrom of u8 for CutDirection (src/beatmap.rs). -/
def CutDirection.tryFrom : Nat → Except Error CutDirection
  | 0 => .ok .up
  | 1 => .ok .down
  | 2 => .ok .left
  | 3 => .ok .right
  | 4 => .ok .upLeft
  | 5 => .ok .upRight
  | 6 => .ok .downLeft
  | 7 => .ok .downRight
  | 8 => .ok .any
  | other => .error (.cutDirectionTryFromU8 other)

/-- impl Into of u8 for CutDirection: the declaration-order ordinal. -/
def CutDirection.intoU8 : CutDirection → Nat
  | .up => 0
  | .down => 1
  | .left => 2
  | .right => 3
  | .upLeft => 4
  | .upRight => 5
  | .downLeft => 6
  | .downRight => 7
  | .any => 8

/-- Arc curvature mode, src/beatmap.rs enum MidAnchorMode. -/
inductive MidAnchorMode where
  | straight
  | clockwise
  | counterClockwise
deriving DecidableEq

/-- impl TryFrom of u8 for MidAnchorMode (src/beatmap.rs). -/
def MidAnchorMode.tryFrom : Nat → Except Error MidAnchorMode
  | 0 => .ok .straight
  | 1 => .ok .clockwise
  | 2 => .ok .counterClockwise
  | other => .error (.midAnchorModeTryFromU8 other)

/-- impl Into of u8 for MidAnchorMode: the declaration-order ordinal. -/
def MidAnchorMode.intoU8 : MidAnchorMode → Nat
  | .straight => 0
  | .clockwise => 1
  | .counterClockwise => 2

/-- Deprecated spawn-rotation timing, src/beatmap.rs enum ExecutionTime. -/
inductive ExecutionTime where
  | early
  | late
deriving DecidableEq

/-- impl TryFrom of u8 for ExecutionTime (src/beatmap.rs). -/
def ExecutionTime.tryFrom : Nat → Except Error ExecutionTime
  | 0 => .ok .early
  | 1 => .ok .late
  | other => .error (.executionTimeTryFromU8 other)

/-- impl Into of u8 for ExecutionTime: the declaration-order ordinal. -/
def ExecutionTime.intoU8 : ExecutionTime → Nat
  | .early => 0
  | .late => 1

namespace Hex

/-- serde's expected-description string from src/hex.rs. -/
def EXPECTING : String := "an RGBA hex code string"

/-- Uppercase hexadecimal digit character for n below 16, as produced by the
Rust {:X} formatting of each digit. -/
def hexDigitUpper (n : Nat) : Char :=
  if n < 10 then Char.ofNat (48 + n) else Char.ofNat (55 + n)

/-- The k low hexadecimal digits of n, most significant first, zero padded to
width k. For v below 16 to the k this is exactly the digit part of Rust's
zero-padded {:#0(k+2)X} rendering of v after trimming the 0x prefix. -/
def toHexPad : Nat → Nat → List Char
  | 0, _ => []
  | k + 1, n => toHexPad k (n / 16) ++ [hexDigitUpper (n % 16)]

/-- Model of hex::serialize from src/hex.rs: format the value with
{v:#010X} (the width 10 includes the 0x prefix, so the digit part is 8 wide,
zero padded, uppercase), trim the 0x prefix (which can occur only once, the
digits being uppercase while the prefix letter x is lowercase), and prepend
a hash. -/
def serialize (v : Nat) : String :=
  String.mk ('#' :: toHexPad 8 v)

/-- Value of a hexadecimal digit character, as Rust char::to_digit(16):
decimal digits, lowercase a-f, uppercase A-F. -/
def hexDigitVal (c : Char) : Option Nat :=
  if 48 ≤ c.toNat ∧ c.toNat ≤ 57 then some (c.toNat - 48)
  else if 97 ≤ c.toNat ∧ c.toNat ≤ 102 then some (c.toNat - 87)
  else if 65 ≤ c.toNat ∧ c.toNat ≤ 70 then some (c.toNat - 55)
  else none

/-- The digit-accumulation loop of from_str_radix: fails on the first
non-digit character, otherwise folds digits most significant first. -/
def parseHexNat : List Char → Nat → Option Nat
  | [], acc => some acc
  | c :: rest, acc =>
    match hexDigitVal c with
    | some d => parseHexNat rest (16 * acc + d)
    | none => none

/-- Model of u32::from_str_radix(s, 16) from Rust core, as called by
src/hex.rs: for an unsigned type only an optional single leading plus sign
is stripped (a minus sign is not, and then fails as an invalid digit); at
least one character must follow, every one a hexadecimal digit; the
accumulated value must fit in u32 (Rust checks at every step, which for
nonnegative accumulation equals the final bound). -/
def from_str_radix_16_u32 : List Char → Option Nat
  | [] => none
  | c :: rest =>
    let ds := if c = '+' then rest else c :: rest
    match ds with
    | [] => none
    | _ :: _ =>
      match parseHexNat ds 0 with
      | none => none
      | some v => if v < 2 ^ 32 then some v else none

/-- Model of HexVisitor::visit_str from src/hex.rs: trim_start_matches
removes every leading hash, then u32::from_str_radix base 16; a parse failure
becomes a serde invalid-value error carrying the full original text. -/
def visit_str (v : String) : Except DeError Nat :=
  let without_hash := v.data.dropWhile (fun c => c = '#')
  match from_str_radix_16_u32 without_hash with
  | some parsed => .ok parsed
  | none => .error (.invalidValue v EXPECTING)

/-- Decoder success predicate following the specification's words, for
comparison with the code's visit_str: strip ONE leading hash if present, and
succeed exactly when the remainder is a non-empty all-hexadecimal string
whose value is representable in 32 bits. -/
def specHexDecodeOk (v : String) : Bool :=
  let r := match v.data with
    | '#' :: rest => rest
    | l => l
  (decide (r ≠ [])) && r.all (fun c => (hexDigitVal c).isSome) &&
    decide (r.foldl (fun a c => 16 * a + (hexDigitVal c).getD 0) 0 < 2 ^ 32)

/-- Folding hexadecimal digit values most significant first, the purely
arithmetic reading of the from_str_radix accumulation. -/
def hexFold (l : List Char) (acc : Nat) : Nat :=
  l.foldl (fun a c => 16 * a + (hexDigitVal c).getD 0) acc

theorem hexDigitVal_hexDigitUpper {n : Nat} (h : n < 16) :
    hexDigitVal (hexDigitUpper n) = some n := by
  interval_cases n <;> decide

theorem toHexPad_length (k n : Nat) : (toHexPad k n).length = k := by
  induction k generalizing n with
  | zero => rfl
  | succ k ih => simp [toHexPad, ih]

theorem isSome_hexDigitVal_of_mem_toHexPad {k n : Nat} {c : Char}
    (hc : c ∈ toHexPad k n) : (hexDigitVal c).isSome := by
  induction k generalizing n with
  | zero => simp [toHexPad] at hc
  | succ k ih =>
    rw [toHexPad] at hc
    rcases List.mem_append.mp hc with h | h
    · exact ih h
    · rcases List.mem_singleton.mp h with rfl
      rw [hexDigitVal_hexDigitUpper (Nat.mod_lt n (by norm_num))]
      rfl

theorem hexDigit_ne_special {c : Char} (h : (hexDigitVal c).isSome) :
    c ≠ '#' ∧ c ≠ '+' ∧ c ≠ '-' := by
  refine ⟨?_, ?_, ?_⟩ <;> rintro rfl <;> exact absurd h (by decide)

theorem dropWhile_hash_eq_self {l : List Char} (h : ∀ c ∈ l, c ≠ '#') :
    l.dropWhile (fun c => c = '#') = l := by
  cases l with
  | nil => rfl
  | cons c rest =>
    rw [List.dropWhile_cons, if_neg]
    simp only [decide_eq_true_eq]
    exact h c (List.mem_cons_self c rest)

theorem parseHexNat_eq (l : List Char) (acc : Nat) :
    parseHexNat l acc =
      (if l.all (fun c => (hexDigitVal c).isSome) then some (hexFold l acc)
       else none) := by
  induction l generalizing acc with
  | nil => simp [parseHexNat, hexFold]
  | cons c rest ih =>
    simp only [parseHexNat, List.all_cons, hexFold, List.foldl_cons]
    cases h : hexDigitVal c with
    | none => simp [h]
    | some d => simp [h, ih, hexFold]

theorem parseHexNat_toHexPad (k : Nat) :
    ∀ n acc, parseHexNat (toHexPad k n) acc = some (acc * 16 ^ k + n % 16 ^ k) := by
  induction k with
  | zero => intro n acc; simp [toHexPad, parseHexNat, Nat.mod_one]
  | succ k ih =>
    intro n acc
    have hd : hexDigitVal (hexDigitUpper (n % 16)) = some (n % 16) :=
      hexDigitVal_hexDigitUpper (Nat.mod_lt n (by norm_num))
    have happ : ∀ (l1 l2 : List Char) (a : Nat),
        parseHexNat (l1 ++ l2) a = Option.bind (parseHexNat l1 a) (parseHexNat l2) := by
      intro l1
      induction l1 with
      | nil => intro l2 a; simp [parseHexNat]
      | cons x xs ihx =>
        intro l2 a
        simp only [List.cons_append, parseHexNat]
        cases hexDigitVal x with
        | none => rfl
        | some d => exact ihx l2 (16 * a + d)
    rw [toHexPad, happ, ih (n / 16) acc]
    simp only [Option.bind, parseHexNat, hd]
    have hmod : n % 16 ^ (k + 1) = 16 * (n / 16 % 16 ^ k) + n % 16 := by
      conv_lhs => rw [pow_succ, mul_comm (16 ^ k) 16]
      have h1 := Nat.div_add_mod (n % (16 * 16 ^ k)) 16
      have h2 : n % (16 * 16 ^ k) / 16 = n / 16 % 16 ^ k :=
        Nat.mod_mul_right_div_self n 16 (16 ^ k)
      have h3 : n % (16 * 16 ^ k) % 16 = n % 16 := Nat.mod_mod_of_dvd n ⟨16 ^ k, rfl⟩
      omega
    rw [hmod, pow_succ]
    congr 1
    ring

theorem from_str_radix_cons_plain {c : Char} {rest : List Char}
    (hplus : c ≠ '+') :
    from_str_radix_16_u32 (c :: rest) =
      (match parseHexNat (c :: rest) 0 with
       | none => none
       | some v => if v < 2 ^ 32 then some v else none) := by
  simp only [from_str_radix_16_u32]
  rw [if_neg hplus]

theorem from_str_radix_cons_plus (rest : List Char) :
    from_str_radix_16_u32 ('+' :: rest) =
      (match rest with
       | [] => none
       | _ :: _ =>
         match parseHexNat rest 0 with
         | none => none
         | some v => if v < 2 ^ 32 then some v else none) := by
  cases rest with
  | nil => rfl
  | cons x xs =>
    cases h : parseHexNat (x :: xs) 0 with
    | none => simp [from_str_radix_16_u32, h]
    | some v => simp [from_str_radix_16_u32, h]

theorem visit_str_ok_iff (v : String) (n : Nat) :
    visit_str v = .ok n ↔
      from_str_radix_16_u32 (v.data.dropWhile (fun c => c = '#')) = some n := by
  unfold visit_str
  cases h : from_str_radix_16_u32 (v.data.dropWhile (fun c => c = '#')) with
  | none => simp [h]
  | some p => simp [h]

theorem from_str_radix_some_iff (l : List Char) (n : Nat) :
    from_str_radix_16_u32 l = some n ↔
      (∃ ds, (l = ds ∨ l = '+' :: ds) ∧ ds ≠ [] ∧
        (∀ c ∈ ds, (hexDigitVal c).isSome) ∧ hexFold ds 0 = n ∧ n < 2 ^ 32) := by
  have hplusval : hexDigitVal '+' = none := by decide
  cases l with
  | nil =>
    constructor
    · intro h
      exact absurd h (by simp [from_str_radix_16_u32])
    · rintro ⟨ds, hds, hne, _⟩
      rcases hds with rfl | hds
      · exact absurd rfl hne
      · exact absurd hds (by simp)
  | cons c rest =>
    by_cases hplus : c = '+'
    · subst hplus
      rw [from_str_radix_cons_plus]
      constructor
      · intro h
        cases rest with
        | nil => exact absurd h (by simp)
        | cons x xs =>
          rw [parseHexNat_eq] at h
          by_cases hall : (x :: xs).all (fun c => (hexDigitVal c).isSome)
          · obtain ⟨hb, h2⟩ : hexFold (x :: xs) 0 < 4294967296 ∧ hexFold (x :: xs) 0 = n := by
              simpa [hall] using h
            refine ⟨x :: xs, Or.inr rfl, by simp,
              fun d hd => List.all_eq_true.mp hall d hd, h2, ?_⟩
            norm_num
            omega
          · simp [hall] at h
      · rintro ⟨ds, hds, hne, hhex, hfold, hlt⟩
        rcases hds with hds | hds
        · subst hds
          have hmem := hhex '+' (List.mem_cons_self _ _)
          rw [hplusval] at hmem
          exact absurd hmem (by simp)
        · have hds2 : ds = rest := by
            injection hds with _ h2
            exact h2.symm
          subst hds2
          cases ds with
          | nil => exact absurd rfl hne
          | cons x xs =>
            have hlt2 : n < 4294967296 := by norm_num at hlt; exact hlt
            simp [parseHexNat_eq, List.all_eq_true.mpr hhex, hfold, hlt2]
    · rw [from_str_radix_cons_plain hplus]
      constructor
      · intro h
        rw [parseHexNat_eq] at h
        by_cases hall : (c :: rest).all (fun d => (hexDigitVal d).isSome)
        · obtain ⟨hb, h2⟩ : hexFold (c :: rest) 0 < 4294967296 ∧ hexFold (c :: rest) 0 = n := by
            simpa [hall] using h
          refine ⟨c :: rest, Or.inl rfl, by simp,
            fun d hd => List.all_eq_true.mp hall d hd, h2, ?_⟩
          norm_num
          omega
        · simp [hall] at h
      · rintro ⟨ds, hds, hne, hhex, hfold, hlt⟩
        rcases hds with hds | hds
        · subst hds
          have hlt2 : n < 4294967296 := by norm_num at hlt; exact hlt
          simp [parseHexNat_eq, List.all_eq_true.mpr hhex, hfold, hlt2]
        · injection hds with h1 _
          exact absurd h1 hplus

end Hex

theorem lineIndex_tryFrom_ge {n : Nat} (h : 4 ≤ n) :
    LineIndex.tryFrom n = .error (.lineIndexTryFromU8 n) := by
  obtain ⟨m, rfl⟩ := Nat.exists_eq_add_of_le' h
  rfl

theorem lineIndex_tryFrom_ok_iff (n : Nat) :
    (∃ v, LineIndex.tryFrom n = .ok v) ↔ n < 4 := by
  constructor
  · rintro ⟨v, hv⟩
    by_contra hlt
    rw [lineIndex_tryFrom_ge (Nat.le_of_not_lt hlt)] at hv
    exact Except.noConfusion hv
  · intro h
    interval_cases n <;> exact ⟨_, rfl⟩

theorem lineIndex_tryFrom_intoU8 (v : LineIndex) :
    LineIndex.tryFrom v.intoU8 = .ok v := by
  cases v <;> rfl

theorem lineLayer_tryFrom_ge {n : Nat} (h : 3 ≤ n) :
    LineLayer.tryFrom n = .error (.lineLayerTryFromU8 n) := by
  obtain ⟨m, rfl⟩ := Nat.exists_eq_add_of_le' h
  rfl

theorem lineLayer_tryFrom_ok_iff (n : Nat) :
    (∃ v, LineLayer.tryFrom n = .ok v) ↔ n < 3 := by
  constructor
  · rintro ⟨v, hv⟩
    by_contra hlt
    rw [lineLayer_tryFrom_ge (Nat.le_of_not_lt hlt)] at hv
    exact Except.noConfusion hv
  · intro h
    interval_cases n <;> exact ⟨_, rfl⟩

theorem lineLayer_tryFrom_intoU8 (v : LineLayer) :
    LineLayer.tryFrom v.intoU8 = .ok v := by
  cases v <;> rfl

theorem color_tryFrom_ge {n : Nat} (h : 2 ≤ n) :
    Color.tryFrom n = .error (.colorTryFromU8 n) := by
  obtain ⟨m, rfl⟩ := Nat.exists_eq_add_of_le' h
  rfl

theorem color_tryFrom_ok_iff (n : Nat) :
    (∃ v, Color.tryFrom n = .ok v) ↔ n < 2 := by
  constructor
  · rintro ⟨v, hv⟩
    by_contra hlt
    rw [color_tryFrom_ge (Nat.le_of_not_lt hlt)] at hv
    exact Except.noConfusion hv
  · intro h
    interval_cases n <;> exact ⟨_, rfl⟩

theorem color_tryFrom_intoU8 (v : Color) :
    Color.tryFrom v.intoU8 = .ok v := by
  cases v <;> rfl

theorem cutDirection_tryFrom_ge {n : Nat} (h : 9 ≤ n) :
    CutDirection.tryFrom n = .error (.cutDirectionTryFromU8 n) := by
  obtain ⟨m, rfl⟩ := Nat.exists_eq_add_of_le' h
  rfl

theorem cutDirection_tryFrom_ok_iff (n : Nat) :
    (∃ v, CutDirection.tryFrom n = .ok v) ↔ n < 9 := by
  constructor
  · rintro ⟨v, hv⟩
    by_contra hlt
    rw [cutDirection_tryFrom_ge (Nat.le_of_not_lt hlt)] at hv
    exact Except.noConfusion hv
  · intro h
    interval_cases n <;> exact ⟨_, rfl⟩

theorem cutDirection_tryFrom_intoU8 (v : CutDirection) :
    CutDirection.tryFrom v.intoU8 = .ok v := by
  cases v <;> rfl

theorem midAnchorMode_tryFrom_ge {n : Nat} (h : 3 ≤ n) :
    MidAnchorMode.tryFrom n = .error (.midAnchorModeTryFromU8 n) := by
  obtain ⟨m, rfl⟩ := Nat.exists_eq_add_of_le' h
  rfl

theorem midAnchorMode_tryFrom_ok_iff (n : Nat) :
    (∃ v, MidAnchorMode.tryFrom n = .ok v) ↔ n < 3 := by
  constructor
  · rintro ⟨v, hv⟩
    by_contra hlt
    rw [midAnchorMode_tryFrom_ge (Nat.le_of_not_lt hlt)] at hv
    exact Except.noConfusion hv
  · intro h
    interval_cases n <;> exact ⟨_, rfl⟩

theorem midAnchorMode_tryFrom_intoU8 (v : MidAnchorMode) :
    MidAnchorMode.tryFrom v.intoU8 = .ok v := by
  cases v <;> rfl

theorem executionTime_tryFrom_ge {n : Nat} (h : 2 ≤ n) :
    ExecutionTime.tryFrom n = .error (.executionTimeTryFromU8 n) := by
  obtain ⟨m, rfl⟩ := Nat.exists_eq_add_of_le' h
  rfl

theorem executionTime_tryFrom_ok_iff (n : Nat) :
    (∃ v, ExecutionTime.tryFrom n = .ok v) ↔ n < 2 := by
  constructor
  · rintro ⟨v, hv⟩
    by_contra hlt
    rw [executionTime_tryFrom_ge (Nat.le_of_not_lt hlt)] at hv
    exact Except.noConfusion hv
  · intro h
    interval_cases n <;> exact ⟨_, rfl⟩

theorem executionTime_tryFrom_intoU8 (v : ExecutionTime) :
    ExecutionTime.tryFrom v.intoU8 = .ok v := by
  cases v <;> rfl

/-- C1: for every 32-bit value x the hex colour codec decodes its own
encoding back to x, the encoding being a hash followed by exactly eight
characters (the zero-padded uppercase hexadecimal digits); in particular
encoding 0x001414FF gives the string "#001414FF". -/
theorem c1_hex_roundtrip :
    (∀ x : Nat, x < 2 ^ 32 →
      Hex.visit_str (Hex.serialize x) = .ok x ∧ (Hex.serialize x).length = 9) ∧
    Hex.serialize 0x001414FF = "#001414FF" := by
  constructor
  · intro x hx
    have hx16 : x < 16 ^ 8 := by
      norm_num at hx ⊢
      exact hx
    have hdig : ∀ c ∈ Hex.toHexPad 8 x, (Hex.hexDigitVal c).isSome :=
      fun c hc => Hex.isSome_hexDigitVal_of_mem_toHexPad hc
    have hdrop : (('#' :: Hex.toHexPad 8 x).dropWhile (fun c => c = '#')) =
        Hex.toHexPad 8 x := by
      rw [List.dropWhile_cons, if_pos (by simp)]
      exact Hex.dropWhile_hash_eq_self
        (fun c hc => (Hex.hexDigit_ne_special (hdig c hc)).1)
    obtain ⟨c, rest, hcr⟩ : ∃ c rest, Hex.toHexPad 8 x = c :: rest := by
      have hlen := Hex.toHexPad_length 8 x
      cases h : Hex.toHexPad 8 x with
      | nil => rw [h] at hlen; simp at hlen
      | cons c rest => exact ⟨c, rest, rfl⟩
    have hchex : (Hex.hexDigitVal c).isSome :=
      hdig c (by rw [hcr]; exact List.mem_cons_self c rest)
    have hspec := Hex.hexDigit_ne_special hchex
    have hparse : Hex.parseHexNat (c :: rest) 0 = some x := by
      rw [← hcr, Hex.parseHexNat_toHexPad]
      rw [Nat.mod_eq_of_lt hx16]
      norm_num
    have hfsr : Hex.from_str_radix_16_u32 (c :: rest) = some x := by
      rw [Hex.from_str_radix_cons_plain hspec.2.1, hparse]
      have hx2 : x < 4294967296 := by norm_num at hx; exact hx
      simp [hx2]
    constructor
    · unfold Hex.visit_str Hex.serialize
      simp only [String.data]
      rw [hdrop, hcr, hfsr]
    · simp [Hex.serialize, String.length, Hex.toHexPad_length]
  · decide

/-- Witness for C1 at x = 3. -/
theorem c1_hex_roundtrip_witness :
    (3 : Nat) < 2 ^ 32 ∧ Hex.visit_str (Hex.serialize 3) = .ok 3 :=
  ⟨by norm_num, (c1_hex_roundtrip.1 3 (by norm_num)).1⟩

/-- C2: for each of the six integer-coded enums and every u8 value n, the
wire-to-variant conversion succeeds exactly when n is below the variant count
(4, 3, 2, 9, 3, 2 respectively), fails otherwise with the error variant that
names the enum and carries n, and converting any variant to its ordinal and
back yields the variant. -/
theorem c2_enum_codec (n : Nat) (_hn : n < 256) :
    ((∃ v, LineIndex.tryFrom n = .ok v) ↔ n < 4) ∧
    (¬ n < 4 → LineIndex.tryFrom n = .error (.lineIndexTryFromU8 n)) ∧
    (∀ v : LineIndex, LineIndex.tryFrom v.intoU8 = .ok v) ∧
    ((∃ v, LineLayer.tryFrom n = .ok v) ↔ n < 3) ∧
    (¬ n < 3 → LineLayer.tryFrom n = .error (.lineLayerTryFromU8 n)) ∧
    (∀ v : LineLayer, LineLayer.tryFrom v.intoU8 = .ok v) ∧
    ((∃ v, Color.tryFrom n = .ok v) ↔ n < 2) ∧
    (¬ n < 2 → Color.tryFrom n = .error (.colorTryFromU8 n)) ∧
    (∀ v : Color, Color.tryFrom v.intoU8 = .ok v) ∧
    ((∃ v, CutDirection.tryFrom n = .ok v) ↔ n < 9) ∧
    (¬ n < 9 → CutDirection.tryFrom n = .error (.cutDirectionTryFromU8 n)) ∧
    (∀ v : CutDirection, CutDirection.tryFrom v.intoU8 = .ok v) ∧
    ((∃ v, MidAnchorMode.tryFrom n = .ok v) ↔ n < 3) ∧
    (¬ n < 3 → MidAnchorMode.tryFrom n = .error (.midAnchorModeTryFromU8 n)) ∧
    (∀ v : MidAnchorMode, MidAnchorMode.tryFrom v.intoU8 = .ok v) ∧
    ((∃ v, ExecutionTime.tryFrom n = .ok v) ↔ n < 2) ∧
    (¬ n < 2 → ExecutionTime.tryFrom n = .error (.executionTimeTryFromU8 n)) ∧
    (∀ v : ExecutionTime, ExecutionTime.tryFrom v.intoU8 = .ok v) :=
  ⟨lineIndex_tryFrom_ok_iff n,
   fun h => lineIndex_tryFrom_ge (Nat.le_of_not_lt h),
   lineIndex_tryFrom_intoU8,
   lineLayer_tryFrom_ok_iff n,
   fun h => lineLayer_tryFrom_ge (Nat.le_of_not_lt h),
   lineLayer_tryFrom_intoU8,
   color_tryFrom_ok_iff n,
   fun h => color_tryFrom_ge (Nat.le_of_not_lt h),
   color_tryFrom_intoU8,
   cutDirection_tryFrom_ok_iff n,
   fun h => cutDirection_tryFrom_ge (Nat.le_of_not_lt h),
   cutDirection_tryFrom_intoU8,
   midAnchorMode_tryFrom_ok_iff n,
   fun h => midAnchorMode_tryFrom_ge (Nat.le_of_not_lt h),
   midAnchorMode_tryFrom_intoU8,
   executionTime_tryFrom_ok_iff n,
   fun h => executionTime_tryFrom_ge (Nat.le_of_not_lt h),
   executionTime_tryFrom_intoU8⟩

/-- Witness for C2 at n = 200: the conversion for CutDirection fails with the
error naming the enum and carrying 200, and the LineIndex ordinal of farRight
converts back to farRight. -/
theorem c2_enum_codec_witness :
    (200 : Nat) < 256 ∧
    CutDirection.tryFrom 200 = .error (.cutDirectionTryFromU8 200) ∧
    LineIndex.tryFrom LineIndex.farRight.intoU8 = .ok LineIndex.farRight := by
  have h := c2_enum_codec 200 (by norm_num)
  exact ⟨by norm_num, h.2.2.2.2.2.2.2.2.2.2.1 (by norm_num), h.2.2.1 LineIndex.farRight⟩

/-- The per-input assertion of claim C6 as stated: the decoder succeeds
exactly when the remainder after stripping one leading hash is a non-empty
all-hexadecimal string representable in 32 bits. -/
theorem c6_claim_negation :
    Hex.visit_str "##FF" = .ok 255 ∧ Hex.specHexDecodeOk "##FF" = false := by
  constructor <;> rfl

/-- C6 amended: the decoder strips ALL leading hash characters (not only
one), then follows u32::from_str_radix semantics for an unsigned type: it
succeeds exactly on an optional single leading plus sign followed by a
non-empty case-insensitive hexadecimal digit string whose value fits in 32
bits (a minus sign is not stripped for the unsigned type, so it fails as a
non-digit character); in every other case it fails with an invalid-value
decode error carrying the full original input text, as "#-0" concretely
shows. -/
theorem c6_hex_decode_amended (v : String) (n : Nat) :
    (Hex.visit_str v = .ok n ↔
      (∃ ds, ((v.data.dropWhile (fun c => c = '#')) = ds ∨
              (v.data.dropWhile (fun c => c = '#')) = '+' :: ds) ∧ ds ≠ [] ∧
        (∀ c ∈ ds, (Hex.hexDigitVal c).isSome) ∧
        Hex.hexFold ds 0 = n ∧ n < 2 ^ 32)) ∧
    ((∀ m, Hex.visit_str v ≠ .ok m) →
      Hex.visit_str v = .error (.invalidValue v Hex.EXPECTING)) ∧
    Hex.visit_str "#-0" = .error (.invalidValue "#-0" Hex.EXPECTING) := by
  refine ⟨?_, ?_, rfl⟩
  · rw [Hex.visit_str_ok_iff]
    exact Hex.from_str_radix_some_iff (v.data.dropWhile (fun c => c = '#')) n
  · intro hfail
    unfold Hex.visit_str
    cases h : Hex.from_str_radix_16_u32 (v.data.dropWhile (fun c => c = '#')) with
    | none => simp only [h]
    | some p =>
      exact absurd ((Hex.visit_str_ok_iff v p).mpr h) (hfail p)

/-- Witness for C6 amended at the input "#00FF00FF". -/
theorem c6_hex_decode_amended_witness :
    Hex.visit_str "#00FF00FF" = .ok 0x00FF00FF := by
  refine ((c6_hex_decode_amended "#00FF00FF" 0x00FF00FF).1).mpr ?_
  refine ⟨"00FF00FF".data, Or.inl (by decide), by decide, ?_, by decide, by decide⟩
  intro c hc
  fin_cases hc <;> decide

/-- Beat type alias from src/lib.rs: beats of a song as a measurement of
time, an f64. -/
abbrev Beat := F64

/-- Whether an f64 model value is finite. -/
def F64.isFinite : F64 → Bool
  | .finite _ => true
  | _ => false

/-- serde_json serialization of an f64 value: a finite value keeps its exact
numeric value on the float lane; NaN and the infinities serialize as null. -/
def F64.toJson : F64 → Json
  | .finite q => .num (.float q)
  | _ => .null

/-- The serde_json Unexpected category of a value, appearing in invalid-type
error text. -/
def jsonTypeName : Json → String
  | .null => "null"
  | .bool _ => "boolean"
  | .num (.int _) => "integer"
  | .num (.float _) => "floating point"
  | .str _ => "string"
  | .arr _ => "sequence"
  | .obj _ => "map"

/-- serde deserialization of f64 from a JSON value: any number is accepted
(the integer lane widens), anything else is an invalid-type error. -/
def decodeF64 : Json → Except DeError F64
  | .num (.int i) => .ok (.finite i)
  | .num (.float q) => .ok (.finite q)
  | j => .error (.invalidType (jsonTypeName j) "f64")

/-- serde deserialization of an unsigned machine integer with the given
exclusive bound (2 to the width): the number must be on the integer lane,
nonnegative (the ofNat constructor) and below the bound, otherwise an
invalid-value error. -/
def decodeUInt (bound : Nat) (expected : String) : Json → Except DeError Nat
  | .num (.int (.ofNat n)) =>
    if n < bound then .ok n else .error (.invalidValue (toString n) expected)
  | .num (.int (.negSucc m)) =>
    .error (.invalidValue (toString (Int.negSucc m)) expected)
  | j => .error (.invalidType (jsonTypeName j) expected)

/-- serde deserialization of a String (and of a PathBuf, modelled as its
textual form) from a JSON value. -/
def decodeString : Json → Except DeError String
  | .str s => .ok s
  | j => .error (.invalidType (jsonTypeName j) "a string")

/-- First value bound to the given key in a JSON object's field list; serde
field matching on well-formed objects, where each key occurs once. -/
def findField : List (String × Json) → String → Option Json
  | [], _ => none
  | (k, v) :: rest, key => if k = key then some v else findField rest key

/-- serde field decoding under the container-level serde(default) attribute:
an absent field takes the given default, a present field must decode. -/
def decodeField (fields : List (String × Json)) (key : String)
    (dec : Json → Except DeError α) (dflt : α) : Except DeError α :=
  match findField fields key with
  | none => .ok dflt
  | some v => dec v

/-- Elementwise decoding of a JSON array, failing on the first failing
element, as the serde Vec deserializer does. -/
def decodeListAux (dec : Json → Except DeError α) : List Json → Except DeError (List α)
  | [] => .ok []
  | j :: rest =>
    match dec j with
    | .error e => .error e
    | .ok x =>
      match decodeListAux dec rest with
      | .error e => .error e
      | .ok xs => .ok (x :: xs)

/-- serde deserialization of Vec from a JSON value: must be an array,
decoded elementwise. -/
def decodeList (dec : Json → Except DeError α) : Json → Except DeError (List α)
  | .arr items => decodeListAux dec items
  | j => .error (.invalidType (jsonTypeName j) "a sequence")

/-- BPM region override, src/audio.rs struct BpmData (usize indices, Beat
boundaries). -/
structure BpmData where
  start_index : Nat
  end_index : Nat
  start_beat : Beat
  end_beat : Beat
deriving DecidableEq

/-- derive(Default) for BpmData: all fields zero. -/
def BpmData.default : BpmData :=
  ⟨0, 0, .finite 0, .finite 0⟩

/-- Loudness region, src/audio.rs struct LufsData (usize fields). -/
structure LufsData where
  start_index : Nat
  end_index : Nat
  loudness : Nat
deriving DecidableEq

/-- derive(Default) for LufsData: all fields zero. -/
def LufsData.default : LufsData :=
  ⟨0, 0, 0⟩

/-- The BPMInfo.dat sidecar, src/audio.rs struct Audio. -/
structure Audio where
  version : String
  song_checksum : String
  song_sample_count : Nat
  song_frequency : Nat
  bpm_data : List BpmData
  lufs_data : List LufsData
deriving DecidableEq

/-- impl Default for Audio (src/audio.rs): version "4.0.0", the rest empty
or zero. -/
def Audio.default : Audio :=
  ⟨"4.0.0", "", 0, 0, [], []⟩

/-- Serialize derive for BpmData with its serde renames: keys si, ei, sb, eb
in declaration order. -/
def BpmData.toJson (b : BpmData) : Json :=
  .obj [("si", .num (.int b.start_index)), ("ei", .num (.int b.end_index)),
        ("sb", b.start_beat.toJson), ("eb", b.end_beat.toJson)]

/-- Deserialize derive for BpmData: serde(default) container attribute,
renamed keys, usize and f64 field decoders. -/
def BpmData.fromJson : Json → Except DeError BpmData
  | .obj fields =>
    match decodeField fields "si" (decodeUInt (2 ^ 64) "usize") BpmData.default.start_index with
    | .error e => .error e
    | .ok si =>
      match decodeField fields "ei" (decodeUInt (2 ^ 64) "usize") BpmData.default.end_index with
      | .error e => .error e
      | .ok ei =>
        match decodeField fields "sb" decodeF64 BpmData.default.start_beat with
        | .error e => .error e
        | .ok sb =>
          match decodeField fields "eb" decodeF64 BpmData.default.end_beat with
          | .error e => .error e
          | .ok eb => .ok ⟨si, ei, sb, eb⟩
  | j => .error (.invalidType (jsonTypeName j) "struct BpmData")

/-- Serialize derive for LufsData with its serde renames: keys si, ei, l. -/
def LufsData.toJson (d : LufsData) : Json :=
  .obj [("si", .num (.int d.start_index)), ("ei", .num (.int d.end_index)),
        ("l", .num (.int d.loudness))]

/-- Deserialize derive for LufsData: serde(default), renamed keys. -/
def LufsData.fromJson : Json → Except DeError LufsData
  | .obj fields =>
    match decodeField fields "si" (decodeUInt (2 ^ 64) "usize") LufsData.default.start_index with
    | .error e => .error e
    | .ok si =>
      match decodeField fields "ei" (decodeUInt (2 ^ 64) "usize") LufsData.default.end_index with
      | .error e => .error e
      | .ok ei =>
        match decodeField fields "l" (decodeUInt (2 ^ 64) "usize") LufsData.default.loudness with
        | .error e => .error e
        | .ok l => .ok ⟨si, ei, l⟩
  | j => .error (.invalidType (jsonTypeName j) "struct LufsData")

/-- Serialize derive for Audio: camelCase keys in declaration order. -/
def Audio.toJson (a : Audio) : Json :=
  .obj [("version", .str a.version),
        ("songChecksum", .str a.song_checksum),
        ("songSampleCount", .num (.int a.song_sample_count)),
        ("songFrequency", .num (.int a.song_frequency)),
        ("bpmData", .arr (a.bpm_data.map BpmData.toJson)),
        ("lufsData", .arr (a.lufs_data.map LufsData.toJson))]

/-- Deserialize derive for Audio: serde(default) with the struct's Default
values, camelCase keys, u32 counters, nested region vectors. -/
def Audio.fromJson : Json → Except DeError Audio
  | .obj fields =>
    match decodeField fields "version" decodeString Audio.default.version with
    | .error e => .error e
    | .ok version =>
      match decodeField fields "songChecksum" decodeString Audio.default.song_checksum with
      | .error e => .error e
      | .ok song_checksum =>
        match decodeField fields "songSampleCount" (decodeUInt (2 ^ 32) "u32")
            Audio.default.song_sample_count with
        | .error e => .error e
        | .ok song_sample_count =>
          match decodeField fields "songFrequency" (decodeUInt (2 ^ 32) "u32")
              Audio.default.song_frequency with
          | .error e => .error e
          | .ok song_frequency =>
            match decodeField fields "bpmData" (decodeList BpmData.fromJson)
                Audio.default.bpm_data with
            | .error e => .error e
            | .ok bpm_data =>
              match decodeField fields "lufsData" (decodeList LufsData.fromJson)
                  Audio.default.lufs_data with
              | .error e => .error e
              | .ok lufs_data =>
                .ok ⟨version, song_checksum, song_sample_count, song_frequency,
                     bpm_data, lufs_data⟩
  | j => .error (.invalidType (jsonTypeName j) "struct Audio")

/-- The value ranges every Rust-constructible BpmData satisfies (usize
fields below 2 to the 64). -/
def BpmData.wf (b : BpmData) : Prop :=
  b.start_index < 2 ^ 64 ∧ b.end_index < 2 ^ 64

/-- Whether both beat boundaries of a BpmData are finite. -/
def BpmData.finiteBeats (b : BpmData) : Prop :=
  b.start_beat.isFinite ∧ b.end_beat.isFinite

/-- The value ranges every Rust-constructible LufsData satisfies. -/
def LufsData.wf (d : LufsData) : Prop :=
  d.start_index < 2 ^ 64 ∧ d.end_index < 2 ^ 64 ∧ d.loudness < 2 ^ 64

/-- The value ranges every Rust-constructible Audio satisfies (u32 counters,
usize region fields). -/
def Audio.wf (a : Audio) : Prop :=
  a.song_sample_count < 2 ^ 32 ∧ a.song_frequency < 2 ^ 32 ∧
    (∀ b ∈ a.bpm_data, b.wf) ∧ (∀ d ∈ a.lufs_data, d.wf)

/-- An Audio value whose single BPM region carries a NaN start beat. -/
def nanAudio : Audio :=
  { Audio.default with bpm_data := [{ BpmData.default with start_beat := F64.nan }] }

theorem decodeF64_toJson {x : F64} (h : x.isFinite) : decodeF64 x.toJson = .ok x := by
  cases x with
  | finite q => rfl
  | nan => simp [F64.isFinite] at h
  | posInf => simp [F64.isFinite] at h
  | negInf => simp [F64.isFinite] at h

theorem decodeUInt_natCast {bound : Nat} {expected : String} {n : Nat} (h : n < bound) :
    decodeUInt bound expected (.num (.int n)) = .ok n := by
  have hofn : ((n : Int)) = Int.ofNat n := rfl
  rw [hofn]
  simp only [decodeUInt]
  rw [if_pos h]

theorem decodeListAux_map {α : Type} (dec : Json → Except DeError α) (enc : α → Json)
    (l : List α) (h : ∀ x ∈ l, dec (enc x) = .ok x) :
    decodeListAux dec (l.map enc) = .ok l := by
  induction l with
  | nil => rfl
  | cons x xs ih =>
    simp only [List.map_cons, decodeListAux]
    rw [h x (List.mem_cons_self x xs), ih (fun y hy => h y (List.mem_cons.mpr (Or.inr hy)))]

theorem bpmData_fromJson_toJson {b : BpmData} (hwf : b.wf) (hfin : b.finiteBeats) :
    BpmData.fromJson b.toJson = .ok b := by
  obtain ⟨si, ei, sb, eb⟩ := b
  obtain ⟨h1, h2⟩ := hwf
  obtain ⟨h3, h4⟩ := hfin
  norm_num [BpmData.wf] at h1 h2
  simp [BpmData.toJson, BpmData.fromJson, decodeField, findField,
        decodeUInt_natCast h1, decodeUInt_natCast h2,
        decodeF64_toJson h3, decodeF64_toJson h4]

theorem lufsData_fromJson_toJson {d : LufsData} (hwf : d.wf) :
    LufsData.fromJson d.toJson = .ok d := by
  obtain ⟨si, ei, l⟩ := d
  obtain ⟨h1, h2, h3⟩ := hwf
  norm_num [LufsData.wf] at h1 h2 h3
  simp [LufsData.toJson, LufsData.fromJson, decodeField, findField,
        decodeUInt_natCast h1, decodeUInt_natCast h2, decodeUInt_natCast h3]

theorem audio_fromJson_toJson {a : Audio} (hwf : a.wf)
    (hfin : ∀ b ∈ a.bpm_data, b.finiteBeats) :
    Audio.fromJson a.toJson = .ok a := by
  obtain ⟨v, ck, sc, sf, bd, ld⟩ := a
  obtain ⟨h1, h2, h3, h4⟩ := hwf
  norm_num [Audio.wf] at h1 h2
  simp only at h3 h4 hfin
  have hbd : decodeListAux BpmData.fromJson (bd.map BpmData.toJson) = .ok bd :=
    decodeListAux_map _ _ _ (fun x hx => bpmData_fromJson_toJson (h3 x hx) (hfin x hx))
  have hld : decodeListAux LufsData.fromJson (ld.map LufsData.toJson) = .ok ld :=
    decodeListAux_map _ _ _ (fun x hx => lufsData_fromJson_toJson (h4 x hx))
  simp [Audio.toJson, Audio.fromJson, decodeField, findField, decodeList,
        decodeUInt_natCast h1, decodeUInt_natCast h2, decodeString, hbd, hld]

/-- C5 counterexample: the Audio round-trip law fails on a constructible
value with a NaN beat: the NaN start beat serializes as null, and null fails
to decode as f64, so decode(encode(nanAudio)) is an error, not nanAudio. -/
theorem c5_audio_roundtrip_counterexample :
    Audio.fromJson (Audio.toJson nanAudio) = .error (.invalidType "null" "f64") ∧
    Audio.fromJson (Audio.toJson nanAudio) ≠ .ok nanAudio := by
  have h1 : Audio.fromJson (Audio.toJson nanAudio) =
      .error (.invalidType "null" "f64") := rfl
  exact ⟨h1, by rw [h1]; exact fun h => Except.noConfusion h⟩

/-- C5 amended: for every constructible Audio value (fields inside their
Rust u32/usize ranges) all of whose f64 beat fields are finite, decoding the
encoding yields exactly the value back; non-finite beats are excluded, since
they serialize as null and null does not decode as f64. -/
theorem c5_audio_roundtrip_amended (a : Audio) (hwf : a.wf)
    (hfin : ∀ b ∈ a.bpm_data, b.finiteBeats) :
    Audio.fromJson (Audio.toJson a) = .ok a :=
  audio_fromJson_toJson hwf hfin

/-- serde deserialization of a signed machine integer with the given
magnitude bounds: nonnegative values below posBound, and negSucc values m
(encoding -(m+1)) with m below negBound. -/
def decodeSInt (negBound posBound : Nat) (expected : String) : Json → Except DeError Int
  | .num (.int (.ofNat n)) =>
    if n < posBound then .ok (.ofNat n)
    else .error (.invalidValue (toString n) expected)
  | .num (.int (.negSucc m)) =>
    if m < negBound then .ok (.negSucc m)
    else .error (.invalidValue (toString (Int.negSucc m)) expected)
  | j => .error (.invalidType (jsonTypeName j) expected)

/-- serde(try_from = "u8") deserialization of an integer-coded enum, as the
derives in src/beatmap.rs produce: decode a u8, then run the fallible
conversion; a conversion failure becomes a custom serde error carrying the
thiserror Display message, which names the enum and the offending value. -/
def decodeTryFromU8 (tf : Nat → Except Error α) (j : Json) : Except DeError α :=
  match decodeUInt 256 "u8" j with
  | .error e => .error e
  | .ok n =>
    match tf n with
    | .error e => .error (.custom e.message)
    | .ok v => .ok v

/-- Placement record, src/beatmap.rs struct Object: beat, i16 rotation lane,
usize metadata index. -/
structure Object where
  beat : Beat
  rotation_lane : Int
  metadata_index : Nat
deriving DecidableEq

/-- derive(Default) for Object. -/
def Object.default : Object := ⟨.finite 0, 0, 0⟩

/-- Grid position, src/beatmap.rs struct GridPosition. -/
structure GridPosition where
  line_index : LineIndex
  line_layer : LineLayer
deriving DecidableEq

/-- derive(Default) for GridPosition: both enums default to ordinal 0. -/
def GridPosition.default : GridPosition := ⟨.farLeft, .bottom⟩

/-- Color note attributes, src/beatmap.rs struct ColorNoteData (the grid
position is serde(flatten)ed). -/
structure ColorNoteData where
  grid_position : GridPosition
  color : Color
  cut_direction : CutDirection
  angle_offset : Int
deriving DecidableEq

/-- derive(Default) for ColorNoteData. -/
def ColorNoteData.default : ColorNoteData :=
  ⟨GridPosition.default, .leftSaber, .up, 0⟩

/-- Obstacle attributes, src/beatmap.rs struct ObstacleData. -/
structure ObstacleData where
  duration : Beat
  grid_position : GridPosition
  width : Int
  height : Int
deriving DecidableEq

/-- derive(Default) for ObstacleData. -/
def ObstacleData.default : ObstacleData := ⟨.finite 0, GridPosition.default, 0, 0⟩

/-- Arc placement, src/beatmap.rs struct Arc. -/
structure Arc where
  head_beat : Beat
  tail_beat : Beat
  head_rotation_lane : Int
  tail_rotation_lane : Int
  head_metadata_index : Nat
  tail_metadata_index : Nat
  arc_metadata_index : Nat
deriving DecidableEq

/-- derive(Default) for Arc. -/
def Arc.default : Arc := ⟨.finite 0, .finite 0, 0, 0, 0, 0, 0⟩

/-- Arc attributes, src/beatmap.rs struct ArcData. -/
structure ArcData where
  head_multiplier : F64
  tail_multiplier : F64
  mid_anchor_mode : MidAnchorMode
deriving DecidableEq

/-- derive(Default) for ArcData. -/
def ArcData.default : ArcData := ⟨.finite 0, .finite 0, .straight⟩

/-- Chain placement, src/beatmap.rs struct Chain. -/
structure Chain where
  head_beat : Beat
  tail_beat : Beat
  head_rotation_lane : Int
  tail_rotation_lane : Int
  head_metadata_index : Nat
  chain_metadata_index : Nat
deriving DecidableEq

/-- derive(Default) for Chain. -/
def Chain.default : Chain := ⟨.finite 0, .finite 0, 0, 0, 0, 0⟩

/-- Chain attributes, src/beatmap.rs struct ChainData (u8 slice count). -/
structure ChainData where
  tail_line_index : LineIndex
  tail_line_layer : LineLayer
  slice_count : Nat
  squish_factor : F64
deriving DecidableEq

/-- derive(Default) for ChainData. -/
def ChainData.default : ChainData := ⟨.farLeft, .bottom, 0, .finite 0⟩

/-- Deprecated spawn rotation placement, src/beatmap.rs struct
SpawnRotation. -/
structure SpawnRotation where
  beat : Beat
  index : Nat
deriving DecidableEq

/-- derive(Default) for SpawnRotation. -/
def SpawnRotation.default : SpawnRotation := ⟨.finite 0, 0⟩

/-- Deprecated spawn rotation attributes, src/beatmap.rs struct
SpawnRotationData. -/
structure SpawnRotationData where
  execution_time : ExecutionTime
  magnitude : F64
deriving DecidableEq

/-- derive(Default) for SpawnRotationData. -/
def SpawnRotationData.default : SpawnRotationData := ⟨.early, .finite 0⟩

/-- The beatmap file, src/beatmap.rs struct Beatmap: nine collection pairs
plus the deprecated spawn-rotation pair. -/
structure Beatmap where
  version : String
  color_notes : List Object
  color_notes_data : List ColorNoteData
  bomb_notes : List Object
  bomb_notes_data : List GridPosition
  obstacles : List Object
  obstacles_data : List ObstacleData
  arcs : List Arc
  arcs_data : List ArcData
  chains : List Chain
  chains_data : List ChainData
  spawn_rotations : List SpawnRotation
  spawn_rotations_data : List SpawnRotationData
deriving DecidableEq

/-- impl Default for Beatmap (src/beatmap.rs): version "4.0.0", every
collection empty. -/
def Beatmap.default : Beatmap :=
  ⟨"4.0.0", [], [], [], [], [], [], [], [], [], [], [], []⟩

/-- Deserialize derive for Object: serde(default), keys b, r, i. -/
def Object.fromJson : Json → Except DeError Object
  | .obj fields =>
    match decodeField fields "b" decodeF64 Object.default.beat with
    | .error e => .error e
    | .ok b =>
      match decodeField fields "r" (decodeSInt 32768 32768 "i16")
          Object.default.rotation_lane with
      | .error e => .error e
      | .ok r =>
        match decodeField fields "i" (decodeUInt (2 ^ 64) "usize")
            Object.default.metadata_index with
        | .error e => .error e
        | .ok i => .ok ⟨b, r, i⟩
  | j => .error (.invalidType (jsonTypeName j) "struct Object")

/-- The field decoding of GridPosition out of an enclosing field list, used
both by its own deserializer and by the serde(flatten) sites: keys x, y,
enum codec decoding, defaults on absence. -/
def GridPosition.fromFields (fields : List (String × Json)) :
    Except DeError GridPosition :=
  match decodeField fields "x" (decodeTryFromU8 LineIndex.tryFrom)
      GridPosition.default.line_index with
  | .error e => .error e
  | .ok x =>
    match decodeField fields "y" (decodeTryFromU8 LineLayer.tryFrom)
        GridPosition.default.line_layer with
    | .error e => .error e
    | .ok y => .ok ⟨x, y⟩

/-- Deserialize derive for GridPosition: serde(default), keys x, y. -/
def GridPosition.fromJson : Json → Except DeError GridPosition
  | .obj fields => GridPosition.fromFields fields
  | j => .error (.invalidType (jsonTypeName j) "struct GridPosition")

/-- Deserialize derive for ColorNoteData: serde(default), flattened grid
position, keys c, d, a with enum codec decoding for c and d. -/
def ColorNoteData.fromJson : Json → Except DeError ColorNoteData
  | .obj fields =>
    match GridPosition.fromFields fields with
    | .error e => .error e
    | .ok gp =>
      match decodeField fields "c" (decodeTryFromU8 Color.tryFrom)
          ColorNoteData.default.color with
      | .error e => .error e
      | .ok c =>
        match decodeField fields "d" (decodeTryFromU8 CutDirection.tryFrom)
            ColorNoteData.default.cut_direction with
        | .error e => .error e
        | .ok d =>
          match decodeField fields "a" (decodeSInt 32768 32768 "i16")
              ColorNoteData.default.angle_offset with
          | .error e => .error e
          | .ok a => .ok ⟨gp, c, d, a⟩
  | j => .error (.invalidType (jsonTypeName j) "struct ColorNoteData")

/-- Deserialize derive for ObstacleData: serde(default), key d, flattened
grid position, i8 keys w and h. -/
def ObstacleData.fromJson : Json → Except DeError ObstacleData
  | .obj fields =>
    match decodeField fields "d" decodeF64 ObstacleData.default.duration with
    | .error e => .error e
    | .ok d =>
      match GridPosition.fromFields fields with
      | .error e => .error e
      | .ok gp =>
        match decodeField fields "w" (decodeSInt 128 128 "i8")
            ObstacleData.default.width with
        | .error e => .error e
        | .ok w =>
          match decodeField fields "h" (decodeSInt 128 128 "i8")
              ObstacleData.default.height with
          | .error e => .error e
          | .ok h => .ok ⟨d, gp, w, h⟩
  | j => .error (.invalidType (jsonTypeName j) "struct ObstacleData")

/-- Deserialize derive for Arc: serde(default), keys hb, tb, hr, tr, hi,
ti, ai. -/
def Arc.fromJson : Json → Except DeError Arc
  | .obj fields =>
    match decodeField fields "hb" decodeF64 Arc.default.head_beat with
    | .error e => .error e
    | .ok hb =>
      match decodeField fields "tb" decodeF64 Arc.default.tail_beat with
      | .error e => .error e
      | .ok tb =>
        match decodeField fields "hr" (decodeSInt 32768 32768 "i16")
            Arc.default.head_rotation_lane with
        | .error e => .error e
        | .ok hr =>
          match decodeField fields "tr" (decodeSInt 32768 32768 "i16")
              Arc.default.tail_rotation_lane with
          | .error e => .error e
          | .ok tr =>
            match decodeField fields "hi" (decodeUInt (2 ^ 64) "usize")
                Arc.default.head_metadata_index with
            | .error e => .error e
            | .ok hi =>
              match decodeField fields "ti" (decodeUInt (2 ^ 64) "usize")
                  Arc.default.tail_metadata_index with
              | .error e => .error e
              | .ok ti =>
                match decodeField fields "ai" (decodeUInt (2 ^ 64) "usize")
                    Arc.default.arc_metadata_index with
                | .error e => .error e
                | .ok ai => .ok ⟨hb, tb, hr, tr, hi, ti, ai⟩
  | j => .error (.invalidType (jsonTypeName j) "struct Arc")

/-- Deserialize derive for ArcData: serde(default), keys m, tm, a with enum
codec decoding for a. -/
def ArcData.fromJson : Json → Except DeError ArcData
  | .obj fields =>
    match decodeField fields "m" decodeF64 ArcData.default.head_multiplier with
    | .error e => .error e
    | .ok m =>
      match decodeField fields "tm" decodeF64 ArcData.default.tail_multiplier with
      | .error e => .error e
      | .ok tm =>
        match decodeField fields "a" (decodeTryFromU8 MidAnchorMode.tryFrom)
            ArcData.default.mid_anchor_mode with
        | .error e => .error e
        | .ok a => .ok ⟨m, tm, a⟩
  | j => .error (.invalidType (jsonTypeName j) "struct ArcData")

/-- Deserialize derive for Chain: serde(default), keys hb, tb, hr, tr, i,
ci. -/
def Chain.fromJson : Json → Except DeError Chain
  | .obj fields =>
    match decodeField fields "hb" decodeF64 Chain.default.head_beat with
    | .error e => .error e
    | .ok hb =>
      match decodeField fields "tb" decodeF64 Chain.default.tail_beat with
      | .error e => .error e
      | .ok tb =>
        match decodeField fields "hr" (decodeSInt 32768 32768 "i16")
            Chain.default.head_rotation_lane with
        | .error e => .error e
        | .ok hr =>
          match decodeField fields "tr" (decodeSInt 32768 32768 "i16")
              Chain.default.tail_rotation_lane with
          | .error e => .error e
          | .ok tr =>
            match decodeField fields "i" (decodeUInt (2 ^ 64) "usize")
                Chain.default.head_metadata_index with
            | .error e => .error e
            | .ok i =>
              match decodeField fields "ci" (decodeUInt (2 ^ 64) "usize")
                  Chain.default.chain_metadata_index with
              | .error e => .error e
              | .ok ci => .ok ⟨hb, tb, hr, tr, i, ci⟩
  | j => .error (.invalidType (jsonTypeName j) "struct Chain")

/-- Deserialize derive for ChainData: serde(default), keys tx, ty, c, s,
with enum codec decoding for tx and ty and a plain u8 slice count. -/
def ChainData.fromJson : Json → Except DeError ChainData
  | .obj fields =>
    match decodeField fields "tx" (decodeTryFromU8 LineIndex.tryFrom)
        ChainData.default.tail_line_index with
    | .error e => .error e
    | .ok tx =>
      match decodeField fields "ty" (decodeTryFromU8 LineLayer.tryFrom)
          ChainData.default.tail_line_layer with
      | .error e => .error e
      | .ok ty =>
        match decodeField fields "c" (decodeUInt 256 "u8")
            ChainData.default.slice_count with
        | .error e => .error e
        | .ok c =>
          match decodeField fields "s" decodeF64 ChainData.default.squish_factor with
          | .error e => .error e
          | .ok s => .ok ⟨tx, ty, c, s⟩
  | j => .error (.invalidType (jsonTypeName j) "struct ChainData")

/-- Deserialize derive for SpawnRotation: serde(default), keys b, i. -/
def SpawnRotation.fromJson : Json → Except DeError SpawnRotation
  | .obj fields =>
    match decodeField fields "b" decodeF64 SpawnRotation.default.beat with
    | .error e => .error e
    | .ok b =>
      match decodeField fields "i" (decodeUInt (2 ^ 64) "usize")
          SpawnRotation.default.index with
      | .error e => .error e
      | .ok i => .ok ⟨b, i⟩
  | j => .error (.invalidType (jsonTypeName j) "struct SpawnRotation")

/-- Deserialize derive for SpawnRotationData: serde(default), keys t, r,
with enum codec decoding for t. -/
def SpawnRotationData.fromJson : Json → Except DeError SpawnRotationData
  | .obj fields =>
    match decodeField fields "t" (decodeTryFromU8 ExecutionTime.tryFrom)
        SpawnRotationData.default.execution_time with
    | .error e => .error e
    | .ok t =>
      match decodeField fields "r" decodeF64 SpawnRotationData.default.magnitude with
      | .error e => .error e
      | .ok r => .ok ⟨t, r⟩
  | j => .error (.invalidType (jsonTypeName j) "struct SpawnRotationData")

/-- Deserialize derive for Beatmap: serde(default) with the struct's
Default values, camelCase keys, thirteen fields in declaration order. -/
def Beatmap.fromJson : Json → Except DeError Beatmap
  | .obj fields =>
    match decodeField fields "version" decodeString Beatmap.default.version with
    | .error e => .error e
    | .ok version =>
      match decodeField fields "colorNotes" (decodeList Object.fromJson)
          Beatmap.default.color_notes with
      | .error e => .error e
      | .ok color_notes =>
        match decodeField fields "colorNotesData" (decodeList ColorNoteData.fromJson)
            Beatmap.default.color_notes_data with
        | .error e => .error e
        | .ok color_notes_data =>
          match decodeField fields "bombNotes" (decodeList Object.fromJson)
              Beatmap.default.bomb_notes with
          | .error e => .error e
          | .ok bomb_notes =>
            match decodeField fields "bombNotesData" (decodeList GridPosition.fromJson)
                Beatmap.default.bomb_notes_data with
            | .error e => .error e
            | .ok bomb_notes_data =>
              match decodeField fields "obstacles" (decodeList Object.fromJson)
                  Beatmap.default.obstacles with
              | .error e => .error e
              | .ok obstacles =>
                match decodeField fields "obstaclesData" (decodeList ObstacleData.fromJson)
                    Beatmap.default.obstacles_data with
                | .error e => .error e
                | .ok obstacles_data =>
                  match decodeField fields "arcs" (decodeList Arc.fromJson)
                      Beatmap.default.arcs with
                  | .error e => .error e
                  | .ok arcs =>
                    match decodeField fields "arcsData" (decodeList ArcData.fromJson)
                        Beatmap.default.arcs_data with
                    | .error e => .error e
                    | .ok arcs_data =>
                      match decodeField fields "chains" (decodeList Chain.fromJson)
                          Beatmap.default.chains with
                      | .error e => .error e
                      | .ok chains =>
                        match decodeField fields "chainsData" (decodeList ChainData.fromJson)
                            Beatmap.default.chains_data with
                        | .error e => .error e
                        | .ok chains_data =>
                          match decodeField fields "spawnRotations"
                              (decodeList SpawnRotation.fromJson)
                              Beatmap.default.spawn_rotations with
                          | .error e => .error e
                          | .ok spawn_rotations =>
                            match decodeField fields "spawnRotationsData"
                                (decodeList SpawnRotationData.fromJson)
                                Beatmap.default.spawn_rotations_data with
                            | .error e => .error e
                            | .ok spawn_rotations_data =>
                              .ok ⟨version, color_notes, color_notes_data, bomb_notes,
                                   bomb_notes_data, obstacles, obstacles_data, arcs,
                                   arcs_data, chains, chains_data, spawn_rotations,
                                   spawn_rotations_data⟩
  | j => .error (.invalidType (jsonTypeName j) "struct Beatmap")

theorem decodeListAux_append_error {α : Type} (dec : Json → Except DeError α)
    {pre : List Json} {l : List α} (hpre : decodeListAux dec pre = .ok l)
    {bad : Json} {e : DeError} (hbad : dec bad = .error e) (post : List Json) :
    decodeListAux dec (pre ++ bad :: post) = .error e := by
  induction pre generalizing l with
  | nil => simp only [List.nil_append, decodeListAux, hbad]
  | cons j rest ih =>
    rw [List.cons_append]
    simp only [decodeListAux] at hpre ⊢
    cases hj : dec j with
    | error e2 =>
      simp only [hj] at hpre
      exact Except.noConfusion hpre
    | ok x =>
      simp only [hj] at hpre ⊢
      cases hr : decodeListAux dec rest with
      | error e2 =>
        simp only [hr] at hpre
        exact Except.noConfusion hpre
      | ok xs => simp only [ih hr]

/-- A beatmap JSON document whose only present field is the named
collection, holding the given array elements. -/
def beatmapDocWith (key : String) (items : List Json) : Json :=
  .obj [(key, .arr items)]

/-- A JSON object carrying a single integer field. -/
def objWithU8 (key : String) (n : Nat) : Json :=
  .obj [(key, .num (.int n))]

theorem colorNoteData_bad_color {n : Nat} (h1 : 2 ≤ n) (h2 : n < 256) :
    ColorNoteData.fromJson (objWithU8 "c" n) =
      .error (.custom (Error.colorTryFromU8 n).message) := by
  simp [objWithU8, ColorNoteData.fromJson, GridPosition.fromFields, decodeField,
        findField, decodeTryFromU8, decodeUInt_natCast h2, color_tryFrom_ge h1]

theorem colorNoteData_bad_cut {n : Nat} (h1 : 9 ≤ n) (h2 : n < 256) :
    ColorNoteData.fromJson (objWithU8 "d" n) =
      .error (.custom (Error.cutDirectionTryFromU8 n).message) := by
  simp [objWithU8, ColorNoteData.fromJson, GridPosition.fromFields, decodeField,
        findField, decodeTryFromU8, decodeUInt_natCast h2, cutDirection_tryFrom_ge h1]

theorem colorNoteData_bad_lineIndex {n : Nat} (h1 : 4 ≤ n) (h2 : n < 256) :
    ColorNoteData.fromJson (objWithU8 "x" n) =
      .error (.custom (Error.lineIndexTryFromU8 n).message) := by
  simp [objWithU8, ColorNoteData.fromJson, GridPosition.fromFields, decodeField,
        findField, decodeTryFromU8, decodeUInt_natCast h2, lineIndex_tryFrom_ge h1]

theorem colorNoteData_bad_lineLayer {n : Nat} (h1 : 3 ≤ n) (h2 : n < 256) :
    ColorNoteData.fromJson (objWithU8 "y" n) =
      .error (.custom (Error.lineLayerTryFromU8 n).message) := by
  simp [objWithU8, ColorNoteData.fromJson, GridPosition.fromFields, decodeField,
        findField, decodeTryFromU8, decodeUInt_natCast h2, lineLayer_tryFrom_ge h1]

theorem arcData_bad_midAnchor {n : Nat} (h1 : 3 ≤ n) (h2 : n < 256) :
    ArcData.fromJson (objWithU8 "a" n) =
      .error (.custom (Error.midAnchorModeTryFromU8 n).message) := by
  simp [objWithU8, ArcData.fromJson, decodeField, findField, decodeTryFromU8,
        decodeUInt_natCast h2, midAnchorMode_tryFrom_ge h1]

theorem spawnRotationData_bad_time {n : Nat} (h1 : 2 ≤ n) (h2 : n < 256) :
    SpawnRotationData.fromJson (objWithU8 "t" n) =
      .error (.custom (Error.executionTimeTryFromU8 n).message) := by
  simp [objWithU8, SpawnRotationData.fromJson, decodeField, findField,
        decodeTryFromU8, decodeUInt_natCast h2, executionTime_tryFrom_ge h1]

/-- C7: when decoding a beatmap document, every integer-coded enum attribute
field goes through the fallible conversion: a single object carrying an
out-of-range integer in any position of its collection makes the whole
Beatmap decode fail with the custom decode error carrying the enum's name
and the offending integer, instead of substituting the default variant.
Stated for each of the six enum-valued wire fields (c, d, x, y in the
colour-note attributes, a in the arc attributes, t in the spawn-rotation
attributes), at any position after a prefix of well-formed elements. -/
theorem c7_beatmap_enum_decode (n : Nat) (hn : n < 256) :
    (2 ≤ n → ∀ (pre post : List Json) (lpre : List ColorNoteData),
      decodeListAux ColorNoteData.fromJson pre = .ok lpre →
      Beatmap.fromJson (beatmapDocWith "colorNotesData" (pre ++ objWithU8 "c" n :: post)) =
        .error (.custom (Error.colorTryFromU8 n).message)) ∧
    (9 ≤ n → ∀ (pre post : List Json) (lpre : List ColorNoteData),
      decodeListAux ColorNoteData.fromJson pre = .ok lpre →
      Beatmap.fromJson (beatmapDocWith "colorNotesData" (pre ++ objWithU8 "d" n :: post)) =
        .error (.custom (Error.cutDirectionTryFromU8 n).message)) ∧
    (4 ≤ n → ∀ (pre post : List Json) (lpre : List ColorNoteData),
      decodeListAux ColorNoteData.fromJson pre = .ok lpre →
      Beatmap.fromJson (beatmapDocWith "colorNotesData" (pre ++ objWithU8 "x" n :: post)) =
        .error (.custom (Error.lineIndexTryFromU8 n).message)) ∧
    (3 ≤ n → ∀ (pre post : List Json) (lpre : List ColorNoteData),
      decodeListAux ColorNoteData.fromJson pre = .ok lpre →
      Beatmap.fromJson (beatmapDocWith "colorNotesData" (pre ++ objWithU8 "y" n :: post)) =
        .error (.custom (Error.lineLayerTryFromU8 n).message)) ∧
    (3 ≤ n → ∀ (pre post : List Json) (lpre : List ArcData),
      decodeListAux ArcData.fromJson pre = .ok lpre →
      Beatmap.fromJson (beatmapDocWith "arcsData" (pre ++ objWithU8 "a" n :: post)) =
        .error (.custom (Error.midAnchorModeTryFromU8 n).message)) ∧
    (2 ≤ n → ∀ (pre post : List Json) (lpre : List SpawnRotationData),
      decodeListAux SpawnRotationData.fromJson pre = .ok lpre →
      Beatmap.fromJson
          (beatmapDocWith "spawnRotationsData" (pre ++ objWithU8 "t" n :: post)) =
        .error (.custom (Error.executionTimeTryFromU8 n).message)) := by
  refine ⟨?_, ?_, ?_, ?_, ?_, ?_⟩ <;> intro hge pre post lpre hpre
  · have hlist := decodeListAux_append_error ColorNoteData.fromJson hpre
      (colorNoteData_bad_color hge hn) post
    simp [beatmapDocWith, Beatmap.fromJson, decodeField, findField, decodeList, hlist]
  · have hlist := decodeListAux_append_error ColorNoteData.fromJson hpre
      (colorNoteData_bad_cut hge hn) post
    simp [beatmapDocWith, Beatmap.fromJson, decodeField, findField, decodeList, hlist]
  · have hlist := decodeListAux_append_error ColorNoteData.fromJson hpre
      (colorNoteData_bad_lineIndex hge hn) post
    simp [beatmapDocWith, Beatmap.fromJson, decodeField, findField, decodeList, hlist]
  · have hlist := decodeListAux_append_error ColorNoteData.fromJson hpre
      (colorNoteData_bad_lineLayer hge hn) post
    simp [beatmapDocWith, Beatmap.fromJson, decodeField, findField, decodeList, hlist]
  · have hlist := decodeListAux_append_error ArcData.fromJson hpre
      (arcData_bad_midAnchor hge hn) post
    simp [beatmapDocWith, Beatmap.fromJson, decodeField, findField, decodeList, hlist]
  · have hlist := decodeListAux_append_error SpawnRotationData.fromJson hpre
      (spawnRotationData_bad_time hge hn) post
    simp [beatmapDocWith, Beatmap.fromJson, decodeField, findField, decodeList, hlist]

/-- Witness for C7 at the first out-of-range value of each enum, with empty
surrounding collections. -/
theorem c7_beatmap_enum_decode_witness :
    Beatmap.fromJson (beatmapDocWith "colorNotesData" [objWithU8 "c" 2]) =
      .error (.custom (Error.colorTryFromU8 2).message) ∧
    Beatmap.fromJson (beatmapDocWith "colorNotesData" [objWithU8 "d" 9]) =
      .error (.custom (Error.cutDirectionTryFromU8 9).message) ∧
    Beatmap.fromJson (beatmapDocWith "colorNotesData" [objWithU8 "x" 4]) =
      .error (.custom (Error.lineIndexTryFromU8 4).message) ∧
    Beatmap.fromJson (beatmapDocWith "colorNotesData" [objWithU8 "y" 3]) =
      .error (.custom (Error.lineLayerTryFromU8 3).message) ∧
    Beatmap.fromJson (beatmapDocWith "arcsData" [objWithU8 "a" 3]) =
      .error (.custom (Error.midAnchorModeTryFromU8 3).message) ∧
    Beatmap.fromJson (beatmapDocWith "spawnRotationsData" [objWithU8 "t" 2]) =
      .error (.custom (Error.executionTimeTryFromU8 2).message) := by
  refine ⟨?_, ?_, ?_, ?_, ?_, ?_⟩
  · exact (c7_beatmap_enum_decode 2 (by norm_num)).1 (by norm_num) [] [] [] rfl
  · exact (c7_beatmap_enum_decode 9 (by norm_num)).2.1 (by norm_num) [] [] [] rfl
  · exact (c7_beatmap_enum_decode 4 (by norm_num)).2.2.1 (by norm_num) [] [] [] rfl
  · exact (c7_beatmap_enum_decode 3 (by norm_num)).2.2.2.1 (by norm_num) [] [] [] rfl
  · exact (c7_beatmap_enum_decode 3 (by norm_num)).2.2.2.2.1 (by norm_num) [] [] [] rfl
  · exact (c7_beatmap_enum_decode 2 (by norm_num)).2.2.2.2.2 (by norm_num) [] [] [] rfl

/-- Witness for C5 amended at the default Audio value. -/
theorem c5_audio_roundtrip_amended_witness :
    Audio.wf Audio.default ∧
    Audio.fromJson (Audio.toJson Audio.default) = .ok Audio.default := by
  have hwf : Audio.default.wf := by
    refine ⟨by norm_num [Audio.default], by norm_num [Audio.default], ?_, ?_⟩ <;>
      intro x hx <;> exact absurd hx (by simp [Audio.default])
  exact ⟨hwf, c5_audio_roundtrip_amended Audio.default hwf
    (by intro b hb; exact absurd hb (by simp [Audio.default]))⟩

/-- serde deserialization of a bool from a JSON value. -/
def decodeBool : Json → Except DeError Bool
  | .bool b => .ok b
  | j => .error (.invalidType (jsonTypeName j) "a boolean")

/-- The serde(with = "super::hex") field codec of src/info.rs colour
fields: the JSON value must be a string, decoded through
HexVisitor::visit_str. -/
def decodeHexColor : Json → Except DeError Nat
  | .str s => Hex.visit_str s
  | j => .error (.invalidType (jsonTypeName j) Hex.EXPECTING)

/-- Song metadata, src/info.rs struct Song (subtitle serializes as
subTitle). -/
structure Song where
  title : String
  subtitle : String
  author : String
deriving DecidableEq

/-- derive(Default) for Song: empty strings. -/
def Song.default : Song := ⟨"", "", ""⟩

/-- Deserialize derive for Song: serde(default), keys title, subTitle,
author. -/
def Song.fromJson : Json → Except DeError Song
  | .obj fields =>
    match decodeField fields "title" decodeString Song.default.title with
    | .error e => .error e
    | .ok title =>
      match decodeField fields "subTitle" decodeString Song.default.subtitle with
      | .error e => .error e
      | .ok subtitle =>
        match decodeField fields "author" decodeString Song.default.author with
        | .error e => .error e
        | .ok author => .ok ⟨title, subtitle, author⟩
  | j => .error (.invalidType (jsonTypeName j) "struct Song")

namespace Info

/-- Audio metadata inside the Info manifest, src/info.rs struct Audio
(distinct from the sidecar Audio of src/audio.rs). PathBuf fields are
modelled by their textual form; the f32 field of DifficultyBeatmap and the
f64 fields here share the floating point model. -/
structure Audio where
  song_filename : String
  song_duration : F64
  audio_data_filename : String
  bpm : F64
  lufs : F64
  preview_start_time : F64
  preview_duration : F64
deriving DecidableEq

/-- impl Default for the info Audio (src/info.rs): song.ogg and BPMInfo.dat
file names, zeros elsewhere. -/
def Audio.default : Audio :=
  ⟨"song.ogg", .finite 0, "BPMInfo.dat", .finite 0, .finite 0, .finite 0, .finite 0⟩

/-- Deserialize derive for the info Audio: serde(default), camelCase keys. -/
def Audio.fromJson : Json → Except DeError Audio
  | .obj fields =>
    match decodeField fields "songFilename" decodeString Audio.default.song_filename with
    | .error e => .error e
    | .ok song_filename =>
      match decodeField fields "songDuration" decodeF64 Audio.default.song_duration with
      | .error e => .error e
      | .ok song_duration =>
        match decodeField fields "audioDataFilename" decodeString
            Audio.default.audio_data_filename with
        | .error e => .error e
        | .ok audio_data_filename =>
          match decodeField fields "bpm" decodeF64 Audio.default.bpm with
          | .error e => .error e
          | .ok bpm =>
            match decodeField fields "lufs" decodeF64 Audio.default.lufs with
            | .error e => .error e
            | .ok lufs =>
              match decodeField fields "previewStartTime" decodeF64
                  Audio.default.preview_start_time with
              | .error e => .error e
              | .ok preview_start_time =>
                match decodeField fields "previewDuration" decodeF64
                    Audio.default.preview_duration with
                | .error e => .error e
                | .ok preview_duration =>
                  .ok ⟨song_filename, song_duration, audio_data_filename, bpm,
                       lufs, preview_start_time, preview_duration⟩
  | j => .error (.invalidType (jsonTypeName j) "struct Audio")

end Info

/-- Colour palette, src/info.rs struct ColorScheme: a flag, a name and
seven colours stored as 32-bit integers, hex strings on the wire. -/
structure ColorScheme where
  use_override : Bool
  color_scheme_name : String
  saber_a_color : Nat
  saber_b_color : Nat
  obstacles_color : Nat
  environment_color_0 : Nat
  environment_color_1 : Nat
  environment_color_0_boost : Nat
  environment_color_1_boost : Nat
deriving DecidableEq

/-- derive(Default) for ColorScheme. -/
def ColorScheme.default : ColorScheme := ⟨false, "", 0, 0, 0, 0, 0, 0, 0⟩

/-- Deserialize derive for ColorScheme: serde(default), camelCase keys, hex
codec on every colour field. -/
def ColorScheme.fromJson : Json → Except DeError ColorScheme
  | .obj fields =>
    match decodeField fields "useOverride" decodeBool ColorScheme.default.use_override with
    | .error e => .error e
    | .ok use_override =>
      match decodeField fields "colorSchemeName" decodeString
          ColorScheme.default.color_scheme_name with
      | .error e => .error e
      | .ok color_scheme_name =>
        match decodeField fields "saberAColor" decodeHexColor
            ColorScheme.default.saber_a_color with
        | .error e => .error e
        | .ok saber_a_color =>
          match decodeField fields "saberBColor" decodeHexColor
              ColorScheme.default.saber_b_color with
          | .error e => .error e
          | .ok saber_b_color =>
            match decodeField fields "obstaclesColor" decodeHexColor
                ColorScheme.default.obstacles_color with
            | .error e => .error e
            | .ok obstacles_color =>
              match decodeField fields "environmentColor0" decodeHexColor
                  ColorScheme.default.environment_color_0 with
              | .error e => .error e
              | .ok environment_color_0 =>
                match decodeField fields "environmentColor1" decodeHexColor
                    ColorScheme.default.environment_color_1 with
                | .error e => .error e
                | .ok environment_color_1 =>
                  match decodeField fields "environmentColor0Boost" decodeHexColor
                      ColorScheme.default.environment_color_0_boost with
                  | .error e => .error e
                  | .ok environment_color_0_boost =>
                    match decodeField fields "environmentColor1Boost" decodeHexColor
                        ColorScheme.default.environment_color_1_boost with
                    | .error e => .error e
                    | .ok environment_color_1_boost =>
                      .ok ⟨use_override, color_scheme_name, saber_a_color,
                           saber_b_color, obstacles_color, environment_color_0,
                           environment_color_1, environment_color_0_boost,
                           environment_color_1_boost⟩
  | j => .error (.invalidType (jsonTypeName j) "struct ColorScheme")

/-- Gameplay mode category, src/info.rs enum Characteristic (string-coded,
with two serde renames). -/
inductive Characteristic where
  | standard
  | noArrows
  | oneSaber
  | threeSixtyDegree
  | ninetyDegree
  | legacy
deriving DecidableEq

/-- The #[default] variant of Characteristic. -/
def Characteristic.default : Characteristic := .standard

/-- serde external tagging of the fieldless enum Characteristic: decode from
the variant strings, two of them renamed (360Degree, 90Degree); an
unrecognized string is a decode error. -/
def Characteristic.fromWire (s : String) : Except DeError Characteristic :=
  if s = "Standard" then .ok .standard
  else if s = "NoArrows" then .ok .noArrows
  else if s = "OneSaber" then .ok .oneSaber
  else if s = "360Degree" then .ok .threeSixtyDegree
  else if s = "90Degree" then .ok .ninetyDegree
  else if s = "Legacy" then .ok .legacy
  else .error (.custom ("unknown variant " ++ s))

/-- serde deserialization of Characteristic from a JSON value. -/
def decodeCharacteristic : Json → Except DeError Characteristic
  | .str s => Characteristic.fromWire s
  | j => .error (.invalidType (jsonTypeName j) "Characteristic")

/-- Difficulty label, src/info.rs enum Difficulty (string-coded; the
default variant is Normal). -/
inductive Difficulty where
  | easy
  | normal
  | hard
  | expert
  | expertPlus
deriving DecidableEq

/-- The #[default] variant of Difficulty. -/
def Difficulty.default : Difficulty := .normal

/-- serde external tagging of the fieldless enum Difficulty: decode from the
variant strings. -/
def Difficulty.fromWire (s : String) : Except DeError Difficulty :=
  if s = "Easy" then .ok .easy
  else if s = "Normal" then .ok .normal
  else if s = "Hard" then .ok .hard
  else if s = "Expert" then .ok .expert
  else if s = "ExpertPlus" then .ok .expertPlus
  else .error (.custom ("unknown variant " ++ s))

/-- serde deserialization of Difficulty from a JSON value. -/
def decodeDifficulty : Json → Except DeError Difficulty
  | .str s => Difficulty.fromWire s
  | j => .error (.invalidType (jsonTypeName j) "Difficulty")

/-- Beatmap designers, src/info.rs struct BeatmapAuthors. -/
structure BeatmapAuthors where
  mappers : List String
  lighters : List String
deriving DecidableEq

/-- derive(Default) for BeatmapAuthors: empty lists. -/
def BeatmapAuthors.default : BeatmapAuthors := ⟨[], []⟩

/-- Deserialize derive for BeatmapAuthors: serde(default), keys mappers,
lighters. -/
def BeatmapAuthors.fromJson : Json → Except DeError BeatmapAuthors
  | .obj fields =>
    match decodeField fields "mappers" (decodeList decodeString)
        BeatmapAuthors.default.mappers with
    | .error e => .error e
    | .ok mappers =>
      match decodeField fields "lighters" (decodeList decodeString)
          BeatmapAuthors.default.lighters with
      | .error e => .error e
      | .ok lighters => .ok ⟨mappers, lighters⟩
  | j => .error (.invalidType (jsonTypeName j) "struct BeatmapAuthors")

/-- Per-difficulty descriptor, src/info.rs struct DifficultyBeatmap. The
u32 jump speed is a Nat, the f32 offset shares the floating point model,
PathBuf file names are modelled textually. -/
structure DifficultyBeatmap where
  characteristic : Characteristic
  difficulty : Difficulty
  beatmap_authors : BeatmapAuthors
  environment_name_idx : Nat
  beatmap_color_scheme_idx : Nat
  note_jump_movement_speed : Nat
  note_jump_start_beat_offset : F64
  beatmap_data_filename : String
  lightshow_data_filename : String
deriving DecidableEq

/-- derive(Default) for DifficultyBeatmap (PathBuf defaults are empty). -/
def DifficultyBeatmap.default : DifficultyBeatmap :=
  ⟨Characteristic.default, Difficulty.default, BeatmapAuthors.default,
   0, 0, 0, .finite 0, "", ""⟩

/-- Deserialize derive for DifficultyBeatmap: serde(default), camelCase
keys. -/
def DifficultyBeatmap.fromJson : Json → Except DeError DifficultyBeatmap
  | .obj fields =>
    match decodeField fields "characteristic" decodeCharacteristic
        DifficultyBeatmap.default.characteristic with
    | .error e => .error e
    | .ok characteristic =>
      match decodeField fields "difficulty" decodeDifficulty
          DifficultyBeatmap.default.difficulty with
      | .error e => .error e
      | .ok difficulty =>
        match decodeField fields "beatmapAuthors" BeatmapAuthors.fromJson
            DifficultyBeatmap.default.beatmap_authors with
        | .error e => .error e
        | .ok beatmap_authors =>
          match decodeField fields "environmentNameIdx" (decodeUInt (2 ^ 64) "usize")
              DifficultyBeatmap.default.environment_name_idx with
          | .error e => .error e
          | .ok environment_name_idx =>
            match decodeField fields "beatmapColorSchemeIdx" (decodeUInt (2 ^ 64) "usize")
                DifficultyBeatmap.default.beatmap_color_scheme_idx with
            | .error e => .error e
            | .ok beatmap_color_scheme_idx =>
              match decodeField fields "noteJumpMovementSpeed" (decodeUInt (2 ^ 32) "u32")
                  DifficultyBeatmap.default.note_jump_movement_speed with
              | .error e => .error e
              | .ok note_jump_movement_speed =>
                match decodeField fields "noteJumpStartBeatOffset" decodeF64
                    DifficultyBeatmap.default.note_jump_start_beat_offset with
                | .error e => .error e
                | .ok note_jump_start_beat_offset =>
                  match decodeField fields "beatmapDataFilename" decodeString
                      DifficultyBeatmap.default.beatmap_data_filename with
                  | .error e => .error e
                  | .ok beatmap_data_filename =>
                    match decodeField fields "lightshowDataFilename" decodeString
                        DifficultyBeatmap.default.lightshow_data_filename with
                    | .error e => .error e
                    | .ok lightshow_data_filename =>
                      .ok ⟨characteristic, difficulty, beatmap_authors,
                           environment_name_idx, beatmap_color_scheme_idx,
                           note_jump_movement_speed, note_jump_start_beat_offset,
                           beatmap_data_filename, lightshow_data_filename⟩
  | j => .error (.invalidType (jsonTypeName j) "struct DifficultyBeatmap")

/-- The Info.dat manifest, src/info.rs struct Info. -/
structure Info where
  version : String
  song : Song
  audio : Info.Audio
  song_preview_filename : String
  cover_image_filename : String
  environment_names : List String
  color_schemes : List ColorScheme
  difficulty_beatmaps : List DifficultyBeatmap
deriving DecidableEq

/-- impl Default for Info (src/info.rs): version 4.0.0, song.ogg preview,
cover.png cover, the defaulted sub-structs, empty lists. -/
def Info.default : Info :=
  ⟨"4.0.0", Song.default, Info.Audio.default, "song.ogg", "cover.png", [], [], []⟩

/-- Deserialize derive for Info: serde(default) with the struct's Default
values, camelCase keys. -/
def Info.fromJson : Json → Except DeError Info
  | .obj fields =>
    match decodeField fields "version" decodeString Info.default.version with
    | .error e => .error e
    | .ok version =>
      match decodeField fields "song" Song.fromJson Info.default.song with
      | .error e => .error e
      | .ok song =>
        match decodeField fields "audio" Info.Audio.fromJson Info.default.audio with
        | .error e => .error e
        | .ok audio =>
          match decodeField fields "songPreviewFilename" decodeString
              Info.default.song_preview_filename with
          | .error e => .error e
          | .ok song_preview_filename =>
            match decodeField fields "coverImageFilename" decodeString
                Info.default.cover_image_filename with
            | .error e => .error e
            | .ok cover_image_filename =>
              match decodeField fields "environmentNames" (decodeList decodeString)
                  Info.default.environment_names with
              | .error e => .error e
              | .ok environment_names =>
                match decodeField fields "colorSchemes" (decodeList ColorScheme.fromJson)
                    Info.default.color_schemes with
                | .error e => .error e
                | .ok color_schemes =>
                  match decodeField fields "difficultyBeatmaps"
                      (decodeList DifficultyBeatmap.fromJson)
                      Info.default.difficulty_beatmaps with
                  | .error e => .error e
                  | .ok difficulty_beatmaps =>
                    .ok ⟨version, song, audio, song_preview_filename,
                         cover_image_filename, environment_names, color_schemes,
                         difficulty_beatmaps⟩
  | j => .error (.invalidType (jsonTypeName j) "struct Info")

/-- C8: decoding an empty JSON object yields an Info in which every field
took its documented default: version 4.0.0, song.ogg preview, cover.png
cover, and the nested audio sub-struct with song.ogg and BPMInfo.dat file
names; the result is exactly the Default value. -/
theorem c8_info_defaults :
    Info.fromJson (Json.obj []) = .ok Info.default ∧
    Info.default.version = "4.0.0" ∧
    Info.default.song_preview_filename = "song.ogg" ∧
    Info.default.cover_image_filename = "cover.png" ∧
    Info.default.audio.song_filename = "song.ogg" ∧
    Info.default.audio.audio_data_filename = "BPMInfo.dat" :=
  ⟨rfl, rfl, rfl, rfl, rfl, rfl⟩

/-- PathBuf::join for the relative file names the assembler uses:
directory, separator, file name. -/
def pathJoin (dir name : String) : String := dir ++ "/" ++ name

/-- Split a character list at its last dot: the part before and the part
after, or none when no dot occurs. -/
def splitAtLastDot : List Char → Option (List Char × List Char)
  | [] => none
  | c :: rest =>
    match splitAtLastDot rest with
    | some (b, a) => some (c :: b, a)
    | none => if c = '.' then some ([], rest) else none

/-- Path::file_stem on a plain relative file name, the shape the referenced
beatmap file names take: none for the empty name, otherwise the portion
before the last dot, or the whole name when there is no dot or the only dot
leads the name. -/
def fileStem (name : String) : Option String :=
  if name = "" then none
  else
    match splitAtLastDot name.data with
    | none => some name
    | some (before, _) => if before = [] then some name else some (String.mk before)

/-- The key under which from_dir stores a difficulty beatmap: the referenced
file name's stem, falling back to the full file name (the unwrap_or in
src/lib.rs). -/
def stemKey (d : DifficultyBeatmap) : String :=
  (fileStem d.beatmap_data_filename).getD d.beatmap_data_filename

/-- HashMap::insert on the key-value list model: replace the value at an
existing key in place, or append a new binding. -/
def mapInsert (m : List (String × Beatmap)) (k : String) (v : Beatmap) :
    List (String × Beatmap) :=
  match m with
  | [] => [(k, v)]
  | (k0, v0) :: rest => if k0 = k then (k, v) :: rest else (k0, v0) :: mapInsert rest k v

/-- The keys of the key-value list model. -/
def mapKeys (m : List (String × Beatmap)) : List String := m.map Prod.fst

/-- The aggregate map-folder value, src/lib.rs struct BeatSaberMap. The
HashMap of beatmaps keyed by OsString is modelled as a key-value list with
HashMap insert semantics and string keys. -/
structure BeatSaberMap where
  info : Info
  audio : Audio
  beatmaps : List (String × Beatmap)
deriving DecidableEq

/-- One observed file load performed by the directory assembler. -/
inductive LoadEvent where
  | info (path : String)
  | beatmap (path : String)
  | audio (path : String)
deriving DecidableEq

/-- The file-system collaborator of BeatSaberMap::from_dir: the result each
from_file call produces at a given path (from_file is read_to_string plus
serde decode; io and decode failures are both folded into the per-path
result). -/
structure DirFS where
  infoFile : String → Except Error Info
  beatmapFile : String → Except Error Beatmap
  audioFile : String → Except Error Audio

/-- The beatmap-loading loop of from_dir (src/lib.rs): iterate the
manifest's difficulty beatmaps in declaration order, load each referenced
file, key it by stem with fallback to the full name, insert into the map
(replacing an existing key); the first failing load aborts the loop. The
second component lists the loads performed, in order. -/
def loadBeatmaps (fs : DirFS) (dir : String) :
    List DifficultyBeatmap → List (String × Beatmap) →
    Except Error (List (String × Beatmap)) × List LoadEvent
  | [], acc => (.ok acc, [])
  | d :: rest, acc =>
    let p := pathJoin dir d.beatmap_data_filename
    match fs.beatmapFile p with
    | .error e => (.error e, [.beatmap p])
    | .ok bm =>
      let r := loadBeatmaps fs dir rest (mapInsert acc (stemKey d) bm)
      (r.1, .beatmap p :: r.2)

/-- BeatSaberMap::from_dir (src/lib.rs) with its load trace: load the
Info.dat manifest; loop over the difficulty beatmaps; then, in the struct
literal, load the audio sidecar at the path derived from
info.audio.audio_data_filename; the first error aborts and is returned. -/
def BeatSaberMap.from_dir_log (fs : DirFS) (dir : String) :
    Except Error BeatSaberMap × List LoadEvent :=
  let infoPath := pathJoin dir "Info.dat"
  match fs.infoFile infoPath with
  | .error e => (.error e, [.info infoPath])
  | .ok info =>
    let r := loadBeatmaps fs dir info.difficulty_beatmaps []
    match r.1 with
    | .error e => (.error e, .info infoPath :: r.2)
    | .ok beatmaps =>
      let audioPath := pathJoin dir info.audio.audio_data_filename
      match fs.audioFile audioPath with
      | .error e => (.error e, .info infoPath :: (r.2 ++ [.audio audioPath]))
      | .ok audio =>
        (.ok ⟨info, audio, beatmaps⟩, .info infoPath :: (r.2 ++ [.audio audioPath]))

/-- BeatSaberMap::from_dir, the returned value alone. -/
def BeatSaberMap.from_dir (fs : DirFS) (dir : String) : Except Error BeatSaberMap :=
  (BeatSaberMap.from_dir_log fs dir).1

theorem loadBeatmaps_all_ok (fs : DirFS) (dir : String)
    (f : DifficultyBeatmap → Beatmap) :
    ∀ (l : List DifficultyBeatmap) (acc : List (String × Beatmap)),
    (∀ d ∈ l, fs.beatmapFile (pathJoin dir d.beatmap_data_filename) = .ok (f d)) →
    loadBeatmaps fs dir l acc =
      (.ok (l.foldl (fun m d => mapInsert m (stemKey d) (f d)) acc),
       l.map (fun d => LoadEvent.beatmap (pathJoin dir d.beatmap_data_filename))) := by
  intro l
  induction l with
  | nil => intro acc _; rfl
  | cons d rest ih =>
    intro acc h
    have hd := h d (List.mem_cons_self d rest)
    simp only [loadBeatmaps, hd, List.foldl_cons, List.map_cons]
    rw [ih _ (fun x hx => h x (List.mem_cons.mpr (Or.inr hx)))]

theorem loadBeatmaps_first_error (fs : DirFS) (dir : String) :
    ∀ (pre : List DifficultyBeatmap) (d : DifficultyBeatmap)
      (post : List DifficultyBeatmap) (acc : List (String × Beatmap)) (e : Error),
    (∀ d2 ∈ pre, ∃ bm, fs.beatmapFile (pathJoin dir d2.beatmap_data_filename) = .ok bm) →
    fs.beatmapFile (pathJoin dir d.beatmap_data_filename) = .error e →
    loadBeatmaps fs dir (pre ++ d :: post) acc =
      (.error e,
       pre.map (fun d2 => LoadEvent.beatmap (pathJoin dir d2.beatmap_data_filename)) ++
         [LoadEvent.beatmap (pathJoin dir d.beatmap_data_filename)]) := by
  intro pre
  induction pre with
  | nil =>
    intro d post acc e _ hd
    simp only [List.nil_append, loadBeatmaps, hd, List.map_nil]
  | cons d2 rest ih =>
    intro d post acc e hpre hd
    obtain ⟨bm, hbm⟩ := hpre d2 (List.mem_cons_self d2 rest)
    simp only [List.cons_append, loadBeatmaps, hbm, List.map_cons, List.append_eq]
    rw [ih d post _ e (fun x hx => hpre x (List.mem_cons.mpr (Or.inr hx))) hd]

theorem mem_mapKeys_insert (m : List (String × Beatmap)) (k k2 : String) (v : Beatmap) :
    k2 ∈ mapKeys (mapInsert m k v) ↔ k2 ∈ mapKeys m ∨ k2 = k := by
  induction m with
  | nil => simp [mapInsert, mapKeys]
  | cons kv rest ih =>
    obtain ⟨k0, v0⟩ := kv
    simp only [mapInsert]
    by_cases h : k0 = k
    · subst h
      rw [if_pos rfl]
      simp only [mapKeys, List.map_cons, List.mem_cons]
      tauto
    · rw [if_neg h]
      simp only [mapKeys, List.map_cons, List.mem_cons] at ih ⊢
      rw [ih]
      tauto

theorem mem_mapKeys_foldl (f : DifficultyBeatmap → Beatmap) :
    ∀ (l : List DifficultyBeatmap) (acc : List (String × Beatmap)) (k : String),
    k ∈ mapKeys (l.foldl (fun m d => mapInsert m (stemKey d) (f d)) acc) ↔
      k ∈ mapKeys acc ∨ ∃ d ∈ l, stemKey d = k := by
  intro l
  induction l with
  | nil => intro acc k; simp
  | cons d rest ih =>
    intro acc k
    simp only [List.foldl_cons]
    rw [ih, mem_mapKeys_insert]
    simp only [List.mem_cons]
    constructor
    · rintro ((h | h) | ⟨d2, hd2, hk⟩)
      · exact Or.inl h
      · exact Or.inr ⟨d, Or.inl rfl, h.symm⟩
      · exact Or.inr ⟨d2, Or.inr hd2, hk⟩
    · rintro (h | ⟨d2, hd2 | hd2, hk⟩)
      · exact Or.inl (Or.inl h)
      · subst hd2
        exact Or.inl (Or.inr hk.symm)
      · exact Or.inr ⟨d2, hd2, hk⟩

/-- An Info manifest referencing a single beatmap file Normal.dat. -/
def missingInfo : Info :=
  { Info.default with difficulty_beatmaps :=
      [{ DifficultyBeatmap.default with beatmap_data_filename := "Normal.dat" }] }

/-- A directory whose manifest loads but whose referenced beatmap file is
missing on disk: the beatmap load yields the io error the OS reports. -/
def missingFS : DirFS :=
  ⟨fun _ => .ok missingInfo,
   fun _ => .error (.io "No such file or directory (os error 2)"),
   fun _ => .ok Audio.default⟩

/-- C3: any io or decode failure of the Info manifest, of a referenced
beatmap file (the first failing one, all earlier ones loadable), or of the
audio sidecar aborts from_dir and surfaces that error verbatim; no Map value
is produced. In particular a manifest referencing a missing beatmap file
fails the whole call with the io error. -/
theorem c3_from_dir_fail_fast (fs : DirFS) (dir : String) :
    (∀ e, fs.infoFile (pathJoin dir "Info.dat") = .error e →
      BeatSaberMap.from_dir fs dir = .error e) ∧
    (∀ info pre d post e,
      fs.infoFile (pathJoin dir "Info.dat") = .ok info →
      info.difficulty_beatmaps = pre ++ d :: post →
      (∀ d2 ∈ pre, ∃ bm,
        fs.beatmapFile (pathJoin dir d2.beatmap_data_filename) = .ok bm) →
      fs.beatmapFile (pathJoin dir d.beatmap_data_filename) = .error e →
      BeatSaberMap.from_dir fs dir = .error e) ∧
    (∀ info e (f : DifficultyBeatmap → Beatmap),
      fs.infoFile (pathJoin dir "Info.dat") = .ok info →
      (∀ d ∈ info.difficulty_beatmaps,
        fs.beatmapFile (pathJoin dir d.beatmap_data_filename) = .ok (f d)) →
      fs.audioFile (pathJoin dir info.audio.audio_data_filename) = .error e →
      BeatSaberMap.from_dir fs dir = .error e) ∧
    BeatSaberMap.from_dir missingFS "sample" =
      .error (.io "No such file or directory (os error 2)") := by
  refine ⟨?_, ?_, ?_, rfl⟩
  · intro e he
    simp [BeatSaberMap.from_dir, BeatSaberMap.from_dir_log, he]
  · intro info pre d post e hinfo hsplit hpre hd
    have hl := loadBeatmaps_first_error fs dir pre d post [] e hpre hd
    simp [BeatSaberMap.from_dir, BeatSaberMap.from_dir_log, hinfo, hsplit, hl]
  · intro info e f hinfo hbm haudio
    have hl := loadBeatmaps_all_ok fs dir f info.difficulty_beatmaps [] hbm
    simp [BeatSaberMap.from_dir, BeatSaberMap.from_dir_log, hinfo, hl, haudio]

/-- Witness for C3: the missing-beatmap directory, through the fail-fast
theorem's beatmap branch. -/
theorem c3_from_dir_fail_fast_witness :
    BeatSaberMap.from_dir missingFS "sample" =
      .error (.io "No such file or directory (os error 2)") :=
  (c3_from_dir_fail_fast missingFS "sample").2.1 missingInfo []
    { DifficultyBeatmap.default with beatmap_data_filename := "Normal.dat" } []
    (.io "No such file or directory (os error 2)") rfl rfl
    (fun d2 h => absurd h (List.not_mem_nil d2)) rfl

/-- A directory whose manifest loads but both the referenced beatmap file
and the audio sidecar are unloadable, with distinguishable errors. -/
def bothFailFS : DirFS :=
  ⟨fun _ => .ok missingInfo,
   fun _ => .error (.io "missing beatmap"),
   fun _ => .error (.io "missing audio")⟩

/-- C4 counterexample: the code loads the beatmap files BEFORE the audio
sidecar (audio is loaded last, in the struct literal), so with both
unloadable the returned error is the beatmap error, not the audio error as
the claim states, and the audio file is never attempted. -/
theorem c4_from_dir_order_counterexample :
    BeatSaberMap.from_dir bothFailFS "sample" = .error (.io "missing beatmap") ∧
    Error.io "missing beatmap" ≠ Error.io "missing audio" ∧
    (BeatSaberMap.from_dir_log bothFailFS "sample").2 =
      [.info "sample/Info.dat", .beatmap "sample/Normal.dat"] :=
  ⟨rfl, by decide, rfl⟩

/-- C4 amended: from_dir performs its loads strictly in the order Info
manifest, then every referenced beatmap file in declaration order, then
(only when every beatmap loaded) the audio sidecar; when a beatmap fails,
that error is returned and the audio file is never read; hence when both the
audio sidecar and a beatmap file are unloadable the returned error is the
(first) beatmap load error. -/
theorem c4_from_dir_order_amended (fs : DirFS) (dir : String) (info : Info)
    (hinfo : fs.infoFile (pathJoin dir "Info.dat") = .ok info) :
    (∀ f : DifficultyBeatmap → Beatmap,
      (∀ d ∈ info.difficulty_beatmaps,
        fs.beatmapFile (pathJoin dir d.beatmap_data_filename) = .ok (f d)) →
      (BeatSaberMap.from_dir_log fs dir).2 =
        .info (pathJoin dir "Info.dat") ::
          (info.difficulty_beatmaps.map
            (fun d => LoadEvent.beatmap (pathJoin dir d.beatmap_data_filename)) ++
           [.audio (pathJoin dir info.audio.audio_data_filename)])) ∧
    (∀ pre d post e,
      info.difficulty_beatmaps = pre ++ d :: post →
      (∀ d2 ∈ pre, ∃ bm,
        fs.beatmapFile (pathJoin dir d2.beatmap_data_filename) = .ok bm) →
      fs.beatmapFile (pathJoin dir d.beatmap_data_filename) = .error e →
      BeatSaberMap.from_dir fs dir = .error e ∧
      (BeatSaberMap.from_dir_log fs dir).2 =
        .info (pathJoin dir "Info.dat") ::
          (pre.map (fun d2 => LoadEvent.beatmap (pathJoin dir d2.beatmap_data_filename)) ++
           [.beatmap (pathJoin dir d.beatmap_data_filename)])) := by
  constructor
  · intro f hbm
    have hl := loadBeatmaps_all_ok fs dir f info.difficulty_beatmaps [] hbm
    cases haudio : fs.audioFile (pathJoin dir info.audio.audio_data_filename) with
    | error e => simp [BeatSaberMap.from_dir_log, hinfo, hl, haudio]
    | ok audio => simp [BeatSaberMap.from_dir_log, hinfo, hl, haudio]
  · intro pre d post e hsplit hpre hd
    have hl := loadBeatmaps_first_error fs dir pre d post [] e hpre hd
    constructor
    · simp [BeatSaberMap.from_dir, BeatSaberMap.from_dir_log, hinfo, hsplit, hl]
    · simp [BeatSaberMap.from_dir_log, hinfo, hsplit, hl]

/-- Witness for C4 amended at the directory where both the beatmap and the
audio fail: the (first) beatmap error comes back and no audio read appears
in the trace. -/
theorem c4_from_dir_order_amended_witness :
    BeatSaberMap.from_dir bothFailFS "sample" = .error (.io "missing beatmap") ∧
    (BeatSaberMap.from_dir_log bothFailFS "sample").2 =
      [.info "sample/Info.dat", .beatmap "sample/Normal.dat"] :=
  (c4_from_dir_order_amended bothFailFS "sample" missingInfo rfl).2 []
    { DifficultyBeatmap.default with beatmap_data_filename := "Normal.dat" } []
    (.io "missing beatmap") rfl (fun d2 h => absurd h (List.not_mem_nil d2)) rfl

/-- A difficulty beatmap entry referencing the given beatmap file. -/
def sampleEntry (name : String) : DifficultyBeatmap :=
  { DifficultyBeatmap.default with beatmap_data_filename := name }

/-- The five-difficulty fixture manifest. -/
def sampleInfo : Info :=
  { Info.default with difficulty_beatmaps :=
      [sampleEntry "Easy.dat", sampleEntry "Normal.dat", sampleEntry "Hard.dat",
       sampleEntry "Expert.dat", sampleEntry "ExpertPlus.dat"] }

/-- A directory carrying the five-difficulty fixture with every file
loadable. -/
def sampleFS : DirFS :=
  ⟨fun _ => .ok sampleInfo, fun _ => .ok Beatmap.default, fun _ => .ok Audio.default⟩

/-- C9: on success the beatmaps mapping keys each loaded beatmap by the
referenced filename with its extension stripped, falling back to the full
filename; its key set is exactly the stem keys of the manifest entries; and
the five-difficulty fixture yields exactly five entries keyed Easy, Normal,
Hard, Expert, ExpertPlus. -/
theorem c9_from_dir_keys (fs : DirFS) (dir : String) (info : Info)
    (audio : Audio) (f : DifficultyBeatmap → Beatmap)
    (hinfo : fs.infoFile (pathJoin dir "Info.dat") = .ok info)
    (hbm : ∀ d ∈ info.difficulty_beatmaps,
      fs.beatmapFile (pathJoin dir d.beatmap_data_filename) = .ok (f d))
    (haudio : fs.audioFile (pathJoin dir info.audio.audio_data_filename) = .ok audio) :
    (BeatSaberMap.from_dir fs dir =
      .ok ⟨info, audio,
           info.difficulty_beatmaps.foldl
             (fun m d => mapInsert m (stemKey d) (f d)) []⟩) ∧
    (∀ k, k ∈ mapKeys (info.difficulty_beatmaps.foldl
        (fun m d => mapInsert m (stemKey d) (f d)) []) ↔
      ∃ d ∈ info.difficulty_beatmaps, stemKey d = k) ∧
    BeatSaberMap.from_dir sampleFS "sample" =
      .ok ⟨sampleInfo, Audio.default,
           [("Easy", Beatmap.default), ("Normal", Beatmap.default),
            ("Hard", Beatmap.default), ("Expert", Beatmap.default),
            ("ExpertPlus", Beatmap.default)]⟩ := by
  refine ⟨?_, ?_, rfl⟩
  · have hl := loadBeatmaps_all_ok fs dir f info.difficulty_beatmaps [] hbm
    simp [BeatSaberMap.from_dir, BeatSaberMap.from_dir_log, hinfo, hl, haudio]
  · intro k
    rw [mem_mapKeys_foldl]
    simp [mapKeys]

/-- Witness for C9 at the five-difficulty fixture. -/
theorem c9_from_dir_keys_witness :
    BeatSaberMap.from_dir sampleFS "sample" =
      .ok ⟨sampleInfo, Audio.default,
           sampleInfo.difficulty_beatmaps.foldl
             (fun m d => mapInsert m (stemKey d) Beatmap.default) []⟩ :=
  (c9_from_dir_keys sampleFS "sample" sampleInfo Audio.default
    (fun _ => Beatmap.default) rfl (fun _ _ => rfl) rfl).1

/-- The duplicate-stem manifest: two entries whose referenced file names
share the stem Normal. -/
def dupInfo : Info :=
  { Info.default with difficulty_beatmaps :=
      [sampleEntry "Normal.dat", sampleEntry "Normal.json"] }

/-- A directory for the duplicate-stem manifest with distinguishable
beatmaps for the two files. -/
def dupFS (b1 b2 : Beatmap) : DirFS :=
  ⟨fun _ => .ok dupInfo,
   fun p => if p = "sample/Normal.dat" then .ok b1 else .ok b2,
   fun _ => .ok Audio.default⟩

/-- The duplicate-stem directory whose first file is unreadable. -/
def dupFailFS : DirFS :=
  ⟨fun _ => .ok dupInfo,
   fun p => if p = "sample/Normal.dat" then .error (.io "unreadable")
            else .ok Beatmap.default,
   fun _ => .ok Audio.default⟩

/-- C10: two manifest entries whose referenced file names share a stem end
up under one key holding the later entry's beatmap, so the mapping has fewer
entries than the manifest; both files are still read (both appear in the
load trace); and a load failure of the earlier duplicate still aborts the
whole assembly. -/
theorem c10_from_dir_duplicate_stems (b1 b2 : Beatmap) :
    stemKey (sampleEntry "Normal.dat") = stemKey (sampleEntry "Normal.json") ∧
    BeatSaberMap.from_dir (dupFS b1 b2) "sample" =
      .ok ⟨dupInfo, Audio.default, [("Normal", b2)]⟩ ∧
    (BeatSaberMap.from_dir_log (dupFS b1 b2) "sample").2 =
      [.info "sample/Info.dat", .beatmap "sample/Normal.dat",
       .beatmap "sample/Normal.json", .audio "sample/BPMInfo.dat"] ∧
    dupInfo.difficulty_beatmaps.length = 2 ∧
    BeatSaberMap.from_dir dupFailFS "sample" = .error (.io "unreadable") :=
  ⟨rfl, rfl, rfl, rfl, rfl⟩

end BSM
